import Mathlib

/-!
Sparse plane rotation of rocSPARSE (`rocsparse_roti_template`)

A shallow embedding of `library/src/level1/rocsparse_roti.hpp`: the host-side
validation and dispatch routine `rocsparse_roti_template` and the two kernels
`roti_kernel_host_scalar` and `roti_kernel_device_scalar`.

Modelling conventions

* A pointer is an address (`Nat`); `nullptr` is address `0`.  Reading through a
  pointer (`load`) has no result at `nullptr`.
* A call has type `Option (rocsparse_status × Machine T)`: `some (st, m)` is a
  call that returned `st` and left the machine in state `m`; `none` is a call
  that dereferenced a null pointer (undefined behaviour, no status returned).
* `rocsparse_int` is a 32-bit signed integer, kept as an `Int` with the
  arithmetic of the launch geometry reduced by `int32_wrap`.
* The element type `T` is arbitrary; the C++ comparison `==` on `T` is an
  arbitrary `BEq T` (no lawfulness is assumed, as for IEEE floats).
* `hipLaunchKernelGGL` appends a `Launch` record to the machine's queue; a
  queued launch is executed by `run_launch`, one thread after the other, and
  `roti_then_sync` is a call followed by the execution of what it enqueued.
* The device function `roti_device` is a parameter of the kernels; where its
  effect matters it is the rotation update of the specification.
-/

namespace Rocsparse

/-! ## Types -/

/-- Modelled from the spec: the status taxonomy returned by every operation
(`rocsparse_status` is declared in `rocsparse-types.h`, which is not part of the
sources at hand). -/
inductive rocsparse_status where
  | success
  | invalid_handle
  | invalid_pointer
  | invalid_value
  | invalid_size
  | internal_error
  deriving DecidableEq, Repr

/-- Modelled from the spec: the pointer mode of a handle, host-resident or
device-resident scalars (declared in `rocsparse-types.h`). -/
inductive rocsparse_pointer_mode where
  | rocsparse_pointer_mode_host
  | rocsparse_pointer_mode_device
  deriving DecidableEq, Repr

/-- The C type `rocsparse_int`: a 32-bit signed integer. -/
abbrev rocsparse_int := Int

/-- The C enumeration `rocsparse_index_base`.  A C enumeration can hold a value
outside its enumerators, so it is kept as an integer. -/
abbrev rocsparse_index_base := Int

/-- Modelled from the spec: the zero-based index base (the offset subtracted
from an index is `0`). -/
def rocsparse_index_base_zero : rocsparse_index_base := 0

/-- Modelled from the spec: the one-based index base (the offset subtracted
from an index is `1`). -/
def rocsparse_index_base_one : rocsparse_index_base := 1

/-- A raw address. -/
abbrev Ptr := Nat

/-- The null pointer. -/
def nullptr : Ptr := 0

/-- A HIP stream, identified by a number. -/
abbrev hipStream_t := Nat

/-- Modelled from the spec: the context handle structure (declared in
`handle.h`): the pointer mode and the borrowed execution stream. -/
structure _rocsparse_handle where
  pointer_mode : rocsparse_pointer_mode
  stream : hipStream_t
  deriving DecidableEq, Repr

/-- The type `rocsparse_handle` is a pointer to the handle structure; `none` is the null
handle. -/
abbrev rocsparse_handle := Option _rocsparse_handle

/-- The launch-geometry type `dim3`; components left out of the constructor default to 1. -/
structure dim3 where
  x : Nat
  y : Nat := 1
  z : Nat := 1
  deriving DecidableEq, Repr

/-! ## Memory -/

/-- Device memory: cells of element type `T` (the buffers `x_val`, `y` and, in
device pointer mode, the scalars `c`, `s`) and cells of `rocsparse_int` (the
buffer `x_ind`). -/
structure DevMem (T : Type) where
  vals : Nat → T
  ints : Nat → rocsparse_int

/-- Reading through a pointer: no result at `nullptr`. -/
def load {α : Type} (mem : Nat → α) (p : Ptr) : Option α :=
  if p = nullptr then none else some (mem p)

/-- The scalar arguments as they are handed to `log_trace`: the values in host
pointer mode, the addresses in device pointer mode. -/
inductive LoggedScalars (T : Type) where
  | values (c s : T)
  | addresses (c s : Ptr)

/-- One record of the call trace: the arguments of a `log_trace` call. -/
structure TraceRecord (T : Type) where
  name : String
  nnz : rocsparse_int
  x_val : Ptr
  x_ind : Ptr
  y : Ptr
  scalars : LoggedScalars T
  idx_base : rocsparse_index_base

/-- The identity of one GPU thread within a launch. -/
structure ThreadCtx where
  blockIdx : Nat
  threadIdx : Nat
  blockDim : Nat
  gridDim : Nat
  deriving DecidableEq, Repr

/-- The per-thread device function `roti_device` (declared in `roti_device.h`,
which is not part of the sources at hand): taken as a parameter.  It receives
the thread identity and the kernel arguments and updates device memory. -/
abbrev RotiDevice (T : Type) :=
  ThreadCtx → rocsparse_int → Ptr → Ptr → Ptr → T → T → rocsparse_index_base →
    DevMem T → DevMem T

/-- A kernel together with its arguments, as passed to `hipLaunchKernelGGL`. -/
inductive KernelCall (T : Type) where
  | host_scalar (nnz : rocsparse_int) (x_val x_ind y : Ptr) (c s : T)
      (idx_base : rocsparse_index_base)
  | device_scalar (nnz : rocsparse_int) (x_val x_ind y : Ptr) (c s : Ptr)
      (idx_base : rocsparse_index_base)

/-- One `hipLaunchKernelGGL` call: kernel and arguments, grid and block
dimensions, dynamic shared memory and stream. -/
structure Launch (T : Type) where
  kernel : KernelCall T
  blocks : dim3
  threads : dim3
  sharedMem : Nat
  stream : hipStream_t

/-- The machine state a call acts on: host memory (where the scalars live in
host pointer mode), device memory, the kernels enqueued so far (oldest first)
and the call trace written by `log_trace`. -/
structure Machine (T : Type) where
  host : Nat → T
  device : DevMem T
  queue : List (Launch T)
  trace : List (TraceRecord T)

/-! ## Kernels -/

section Kernels

variable {T : Type} [BEq T] [One T] [Zero T]

/-- Kernel `roti_kernel_host_scalar`: the scalars arrive by value and the thread calls
`roti_device`. -/
def roti_kernel_host_scalar (roti_device : RotiDevice T) (t : ThreadCtx)
    (nnz : rocsparse_int) (x_val x_ind y : Ptr) (c s : T)
    (idx_base : rocsparse_index_base) (d : DevMem T) : Option (DevMem T) :=
  some (roti_device t nnz x_val x_ind y c s idx_base d)

/-- Kernel `roti_kernel_device_scalar`: the thread reads `*c` and `*s` from device
memory, returns at once when `*c == 1 && *s == 0`, and calls `roti_device` with
the values otherwise.  Both scalars are read on every path that does not
return early, so both reads are done first. -/
def roti_kernel_device_scalar (roti_device : RotiDevice T) (t : ThreadCtx)
    (nnz : rocsparse_int) (x_val x_ind y : Ptr) (c s : Ptr)
    (idx_base : rocsparse_index_base) (d : DevMem T) : Option (DevMem T) :=
  match load d.vals c with
  | none => none
  | some cv =>
    match load d.vals s with
    | none => none
    | some sv =>
      if (cv == 1 && sv == 0) = true then
        some d
      else
        some (roti_device t nnz x_val x_ind y cv sv idx_base d)

/-- The body one thread of a launched kernel executes. -/
def kernel_body (roti_device : RotiDevice T) (k : KernelCall T) (t : ThreadCtx)
    (d : DevMem T) : Option (DevMem T) :=
  match k with
  | .host_scalar nnz x_val x_ind y c s idx_base =>
    roti_kernel_host_scalar roti_device t nnz x_val x_ind y c s idx_base d
  | .device_scalar nnz x_val x_ind y c s idx_base =>
    roti_kernel_device_scalar roti_device t nnz x_val x_ind y c s idx_base d

/-- Running a list of threads one after the other; a faulting thread faults the
run. -/
def run_threads (body : ThreadCtx → DevMem T → Option (DevMem T)) :
    List ThreadCtx → DevMem T → Option (DevMem T)
  | [], d => some d
  | t :: ts, d =>
    match body t d with
    | none => none
    | some d1 => run_threads body ts d1

/-- The threads of a one-dimensional launch, block by block. -/
def grid_threads (gridDim blockDim : Nat) : List ThreadCtx :=
  (List.range gridDim).flatMap fun b =>
    (List.range blockDim).map fun i =>
      { blockIdx := b, threadIdx := i, blockDim := blockDim, gridDim := gridDim }

/-- Executing one queued launch on device memory. -/
def run_launch (roti_device : RotiDevice T) (l : Launch T) (d : DevMem T) :
    Option (DevMem T) :=
  run_threads (kernel_body roti_device l.kernel) (grid_threads l.blocks.x l.threads.x) d

end Kernels

/-! ## Host side -/

/-- Reduction of an integer to the range of a 32-bit signed integer. -/
def int32_wrap (z : Int) : Int :=
  (z + 2147483648) % 4294967296 - 2147483648

/-- Conversion of a 32-bit signed integer to `uint32_t`, the component type of
`dim3`. -/
def to_uint32 (z : Int) : Nat :=
  (z % 4294967296).toNat

/-- The macro `ROTI_DIM`: threads per block. -/
def ROTI_DIM : Int := 512

/-- The expression `(nnz - 1) / ROTI_DIM + 1` in 32-bit signed arithmetic with
truncating division: the subtraction, the quotient and the sum in turn. -/
def roti_blocks_int (nnz : rocsparse_int) : Int :=
  int32_wrap (int32_wrap (Int.tdiv (int32_wrap (nnz - 1)) ROTI_DIM) + 1)

/-- The grid dimension `roti_blocks((nnz - 1) / ROTI_DIM + 1)`. -/
def roti_blocks (nnz : rocsparse_int) : dim3 :=
  { x := to_uint32 (roti_blocks_int nnz) }

/-- The block dimension `roti_threads(ROTI_DIM)`. -/
def roti_threads : dim3 :=
  { x := to_uint32 ROTI_DIM }

section Host

variable {T : Type} [BEq T] [One T] [Zero T]

/-- Modelled from the spec: the call `log_trace` (declared in `utility.h`) emits a
diagnostic trace of the call; here it appends the record to the machine's
trace. -/
def log_trace (r : TraceRecord T) (m : Machine T) : Machine T :=
  { m with trace := m.trace ++ [r] }

/-- The macro `hipLaunchKernelGGL`: enqueue a kernel on a stream. -/
def hipLaunchKernelGGL (k : KernelCall T) (blocks threads : dim3) (sharedMem : Nat)
    (stream : hipStream_t) (m : Machine T) : Machine T :=
  { m with queue := m.queue ++
      [{ kernel := k, blocks := blocks, threads := threads, sharedMem := sharedMem,
         stream := stream }] }

/-- The logging step of `rocsparse_roti_template`.  In host pointer mode the argument
list of `log_trace` contains the expressions `*c` and `*s`; in device pointer
mode it contains the pointers themselves. -/
def roti_logging (h : _rocsparse_handle) (nnz : rocsparse_int) (x_val x_ind y c s : Ptr)
    (idx_base : rocsparse_index_base) (m : Machine T) : Option (Machine T) :=
  match h.pointer_mode with
  | .rocsparse_pointer_mode_host =>
    match load m.host c with
    | none => none
    | some cv =>
      match load m.host s with
      | none => none
      | some sv =>
        some (log_trace
          { name := "rocsparse_Xroti", nnz := nnz, x_val := x_val, x_ind := x_ind, y := y,
            scalars := .values cv sv, idx_base := idx_base } m)
  | .rocsparse_pointer_mode_device =>
    some (log_trace
      { name := "rocsparse_Xroti", nnz := nnz, x_val := x_val, x_ind := x_ind, y := y,
        scalars := .addresses c s, idx_base := idx_base } m)

/-- The part of `rocsparse_roti_template` after the pointer checks and the quick
return: launch geometry and the branch on the pointer mode. -/
def roti_dispatch (h : _rocsparse_handle) (nnz : rocsparse_int) (x_val x_ind y c s : Ptr)
    (idx_base : rocsparse_index_base) (m : Machine T) :
    Option (rocsparse_status × Machine T) :=
  let stream := h.stream
  match h.pointer_mode with
  | .rocsparse_pointer_mode_device =>
    some (.success,
      hipLaunchKernelGGL (.device_scalar nnz x_val x_ind y c s idx_base)
        (roti_blocks nnz) roti_threads 0 stream m)
  | .rocsparse_pointer_mode_host =>
    match load m.host c with
    | none => none
    | some cv =>
      match load m.host s with
      | none => none
      | some sv =>
        if (cv == 1 && sv == 0) = true then
          some (.success, m)
        else
          some (.success,
            hipLaunchKernelGGL (.host_scalar nnz x_val x_ind y cv sv idx_base)
              (roti_blocks nnz) roti_threads 0 stream m)

/-- The routine `rocsparse_roti_template`. -/
def rocsparse_roti_template (handle : rocsparse_handle) (nnz : rocsparse_int)
    (x_val x_ind y c s : Ptr) (idx_base : rocsparse_index_base) (m : Machine T) :
    Option (rocsparse_status × Machine T) :=
  match handle with
  -- Check for valid handle
  | none => some (.invalid_handle, m)
  | some h =>
    -- Logging
    match roti_logging h nnz x_val x_ind y c s idx_base m with
    | none => none
    | some m1 =>
      -- Check index base
      if idx_base ≠ rocsparse_index_base_zero ∧ idx_base ≠ rocsparse_index_base_one then
        some (.invalid_value, m1)
      -- Check size
      else if nnz < 0 then
        some (.invalid_size, m1)
      -- Check pointer arguments
      else if c = nullptr then
        some (.invalid_pointer, m1)
      else if s = nullptr then
        some (.invalid_pointer, m1)
      else if x_val = nullptr then
        some (.invalid_pointer, m1)
      else if x_ind = nullptr then
        some (.invalid_pointer, m1)
      else if y = nullptr then
        some (.invalid_pointer, m1)
      -- Quick return if possible
      else if nnz = 0 then
        some (.success, m1)
      else
        roti_dispatch h nnz x_val x_ind y c s idx_base m1

end Host

/-! ## The validation order as the specification words it -/

/-- The status the specification's fixed validation order prescribes, first
failing check first: null handle, index base outside zero and one, negative
`nnz`, a null pointer among `c`, `s`, `x_val`, `x_ind`, `y`; `success`
otherwise.  This follows the specification, not the source. -/
def spec_status (handle : rocsparse_handle) (nnz : rocsparse_int)
    (x_val x_ind y c s : Ptr) (idx_base : rocsparse_index_base) : rocsparse_status :=
  if handle = none then .invalid_handle
  else if idx_base ≠ rocsparse_index_base_zero ∧ idx_base ≠ rocsparse_index_base_one then
    .invalid_value
  else if nnz < 0 then .invalid_size
  else if c = nullptr ∨ s = nullptr ∨ x_val = nullptr ∨ x_ind = nullptr ∨ y = nullptr then
    .invalid_pointer
  else .success

/-! ## The rotation update, synchronisation and the version encoding -/

/-- The global index of a thread in a one-dimensional launch,
`hipBlockIdx_x * hipBlockDim_x + hipThreadIdx_x`. -/
def global_index (t : ThreadCtx) : Nat :=
  t.blockIdx * t.blockDim + t.threadIdx

/-- The address of `y[idx]` for a signed index `idx`. -/
def y_addr (y : Ptr) (idx : Int) : Nat :=
  ((y : Int) + idx).toNat

/-- Modelled from the spec: the update of sparse entry `i` (file `roti_device.h`
is not part of the sources at hand).  Nothing is done when `i` is not below
`nnz`; otherwise `idx = x_ind[i] - index_base`,
`new_x = c * x_val[i] - s * y[idx]`, `new_y = s * x_val[i] + c * y[idx]`,
`x_val[i] = new_x`, `y[idx] = new_y`. -/
def roti_entry {T : Type} [Mul T] [Add T] [Sub T] (i : Nat) (nnz : rocsparse_int)
    (x_val x_ind y : Ptr) (c s : T) (idx_base : rocsparse_index_base) (d : DevMem T) :
    DevMem T :=
  if nnz ≤ (i : Int) then d
  else
    let idx : Int := d.ints (x_ind + i) - idx_base
    let new_x := c * d.vals (x_val + i) - s * d.vals (y_addr y idx)
    let new_y := s * d.vals (x_val + i) + c * d.vals (y_addr y idx)
    { d with
      vals := Function.update (Function.update d.vals (x_val + i) new_x) (y_addr y idx) new_y }

/-- Modelled from the spec: the device function `roti_device`.  The launch
partitions the sparse entries over the threads, so the thread with global index
`i` applies the update of entry `i`. -/
def roti_device {T : Type} [Mul T] [Add T] [Sub T] : RotiDevice T :=
  fun t nnz x_val x_ind y c s idx_base d =>
    roti_entry (global_index t) nnz x_val x_ind y c s idx_base d

section Sync

variable {T : Type} [BEq T] [One T] [Zero T]

/-- Executing queued launches in order, oldest first. -/
def run_queue (roti_device : RotiDevice T) : List (Launch T) → DevMem T → Option (DevMem T)
  | [], d => some d
  | l :: ls, d =>
    match run_launch roti_device l d with
    | none => none
    | some d1 => run_queue roti_device ls d1

/-- A call of `rocsparse_roti_template` followed by synchronisation: the launches
the call has added to the queue are executed on device memory.  The result is
the returned status and device memory after synchronisation. -/
def roti_then_sync (roti_device : RotiDevice T) (handle : rocsparse_handle)
    (nnz : rocsparse_int) (x_val x_ind y c s : Ptr) (idx_base : rocsparse_index_base)
    (m : Machine T) : Option (rocsparse_status × DevMem T) :=
  (rocsparse_roti_template handle nnz x_val x_ind y c s idx_base m).bind fun r =>
    (run_queue roti_device (r.2.queue.drop m.queue.length) r.2.device).map fun d => (r.1, d)

end Sync

/-- Modelled from the spec: the encoded library version,
`version = major*100000 + minor*100 + patch` (the body of
`rocsparse_get_version` is not part of the sources at hand). -/
def encode_version (major minor patch : Int) : Int :=
  major * 100000 + minor * 100 + patch

/-- The decoding `patch = version % 100` documented for `rocsparse_get_version`,
with the remainder of C. -/
def version_patch (version : Int) : Int :=
  Int.tmod version 100

/-- The decoding `minor = version / 100 % 1000` documented for
`rocsparse_get_version`, with the truncating division and remainder of C. -/
def version_minor (version : Int) : Int :=
  Int.tmod (Int.tdiv version 100) 1000

/-- The decoding `major = version / 100000` documented for `rocsparse_get_version`,
with the truncating division of C. -/
def version_major (version : Int) : Int :=
  Int.tdiv version 100000

/-! ## Concrete inputs used by the witnesses -/

/-- A machine over `Int` whose host and device cells all hold `0`. -/
def machine0 : Machine Int :=
  { host := fun _ => 0, device := { vals := fun _ => 0, ints := fun _ => 0 },
    queue := [], trace := [] }

/-- A machine over `Int` whose host cell 1 and device cell 1 hold `1` and whose
other cells hold `0`: the pair `(c, s) = (1, 2)` of addresses is the identity
rotation. -/
def machineId : Machine Int :=
  { host := fun a => if a = 1 then 1 else 0,
    device := { vals := fun a => if a = 1 then 1 else 0, ints := fun _ => 0 },
    queue := [], trace := [] }

/-- A handle in host pointer mode on stream 0. -/
def hostHandle : _rocsparse_handle :=
  { pointer_mode := .rocsparse_pointer_mode_host, stream := 0 }

/-- A handle in device pointer mode on stream 0. -/
def deviceHandle : _rocsparse_handle :=
  { pointer_mode := .rocsparse_pointer_mode_device, stream := 0 }

/-- The machine of the end-to-end scenario with the given index cell: on the
device `x_val = [2]` at address 10, `y = [1, 0, 0]` at address 20, `x_ind = [k]`
at address 30, and the scalars `c = 0` at address 40, `s = 1` at address 41,
the scalars being there in host memory as well. -/
def machineRot (k : Int) : Machine Int :=
  { host := fun a => if a = 41 then 1 else 0,
    device :=
      { vals := fun a => if a = 10 then 2 else if a = 20 then 1 else if a = 41 then 1 else 0,
        ints := fun a => if a = 30 then k else 0 },
    queue := [], trace := [] }


section Lemmas

variable {T : Type}

/-- Reading through a non-null pointer yields the cell it addresses. -/
theorem load_of_ne_null {α : Type} (mem : Nat → α) {p : Ptr} (hp : p ≠ nullptr) :
    load mem p = some (mem p) := by
  simp [load, hp]

/-- Reading through the null pointer yields nothing. -/
theorem load_null {α : Type} (mem : Nat → α) : load mem nullptr = none := by
  simp [load]

/-- The logging step changes the call trace only. -/
theorem roti_logging_frame (h : _rocsparse_handle) (nnz : rocsparse_int)
    (x_val x_ind y c s : Ptr) (idx_base : rocsparse_index_base) (m m1 : Machine T)
    (hlog : roti_logging h nnz x_val x_ind y c s idx_base m = some m1) :
    m1.queue = m.queue ∧ m1.device = m.device ∧ m1.host = m.host := by
  unfold roti_logging at hlog
  cases hm : h.pointer_mode <;> rw [hm] at hlog <;> simp only at hlog
  · cases hc : load m.host c <;> rw [hc] at hlog <;> simp only at hlog
    · exact absurd hlog (by simp)
    · cases hs : load m.host s <;> rw [hs] at hlog <;> simp only at hlog
      · exact absurd hlog (by simp)
      · cases hlog
        exact ⟨rfl, rfl, rfl⟩
  · cases hlog
    exact ⟨rfl, rfl, rfl⟩

/-- In device pointer mode the logging step always completes. -/
theorem roti_logging_device (h : _rocsparse_handle)
    (hm : h.pointer_mode = .rocsparse_pointer_mode_device) (nnz : rocsparse_int)
    (x_val x_ind y c s : Ptr) (idx_base : rocsparse_index_base) (m : Machine T) :
    ∃ m1, roti_logging h nnz x_val x_ind y c s idx_base m = some m1 := by
  simp [roti_logging, hm]

/-- With non-null scalar pointers the logging step completes in both pointer
modes. -/
theorem roti_logging_of_scalars (h : _rocsparse_handle) (nnz : rocsparse_int)
    (x_val x_ind y c s : Ptr) (idx_base : rocsparse_index_base) (m : Machine T)
    (hc : c ≠ nullptr) (hs : s ≠ nullptr) :
    ∃ m1, roti_logging h nnz x_val x_ind y c s idx_base m = some m1 := by
  cases hm : h.pointer_mode <;> simp [roti_logging, hm, load, hc, hs]

/-- In host pointer mode the logging step faults on a null `c`. -/
theorem roti_logging_host_null_c (h : _rocsparse_handle)
    (hm : h.pointer_mode = .rocsparse_pointer_mode_host) (nnz : rocsparse_int)
    (x_val x_ind y s : Ptr) (idx_base : rocsparse_index_base) (m : Machine T) :
    roti_logging h nnz x_val x_ind y nullptr s idx_base m = none := by
  simp [roti_logging, hm, load]

/-- In host pointer mode the logging step faults on a null `s`. -/
theorem roti_logging_host_null_s (h : _rocsparse_handle)
    (hm : h.pointer_mode = .rocsparse_pointer_mode_host) (nnz : rocsparse_int)
    (x_val x_ind y c : Ptr) (idx_base : rocsparse_index_base) (m : Machine T) :
    roti_logging h nnz x_val x_ind y c nullptr idx_base m = none := by
  unfold roti_logging
  rw [hm]
  simp only
  cases load m.host c <;> simp [load]

/-- The dispatch step changes the kernel queue only. -/
theorem roti_dispatch_frame [BEq T] [One T] [Zero T] (h : _rocsparse_handle) (nnz : rocsparse_int)
    (x_val x_ind y c s : Ptr) (idx_base : rocsparse_index_base) (m m1 : Machine T)
    (st : rocsparse_status)
    (hd : roti_dispatch h nnz x_val x_ind y c s idx_base m = some (st, m1)) :
    st = .success ∧ m1.device = m.device ∧ m1.host = m.host := by
  unfold roti_dispatch at hd
  simp only at hd
  cases hm : h.pointer_mode <;> rw [hm] at hd <;> simp only at hd
  · cases hc : load m.host c <;> rw [hc] at hd <;> simp only at hd
    · exact absurd hd (by simp)
    · cases hs : load m.host s <;> rw [hs] at hd <;> simp only at hd
      · exact absurd hd (by simp)
      · split at hd <;> cases hd <;> exact ⟨rfl, rfl, rfl⟩
  · cases hd
    exact ⟨rfl, rfl, rfl⟩

/-- The routine with a non-null handle, once the logging step has completed. -/
theorem roti_template_of_logged [BEq T] [One T] [Zero T] (h : _rocsparse_handle)
    (nnz : rocsparse_int) (x_val x_ind y c s : Ptr) (idx_base : rocsparse_index_base)
    (m m1 : Machine T)
    (hlog : roti_logging h nnz x_val x_ind y c s idx_base m = some m1) :
    rocsparse_roti_template (some h) nnz x_val x_ind y c s idx_base m =
      if idx_base ≠ rocsparse_index_base_zero ∧ idx_base ≠ rocsparse_index_base_one then
        some (.invalid_value, m1)
      else if nnz < 0 then some (.invalid_size, m1)
      else if c = nullptr then some (.invalid_pointer, m1)
      else if s = nullptr then some (.invalid_pointer, m1)
      else if x_val = nullptr then some (.invalid_pointer, m1)
      else if x_ind = nullptr then some (.invalid_pointer, m1)
      else if y = nullptr then some (.invalid_pointer, m1)
      else if nnz = 0 then some (.success, m1)
      else roti_dispatch h nnz x_val x_ind y c s idx_base m1 := by
  simp only [rocsparse_roti_template, hlog]

/-- A status the routine returns is the one the validation order prescribes. -/
theorem roti_returned_status [BEq T] [One T] [Zero T] (handle : rocsparse_handle)
    (nnz : rocsparse_int) (x_val x_ind y c s : Ptr) (idx_base : rocsparse_index_base)
    (m m1 : Machine T) (st : rocsparse_status)
    (hret : rocsparse_roti_template handle nnz x_val x_ind y c s idx_base m = some (st, m1)) :
    st = spec_status handle nnz x_val x_ind y c s idx_base := by
  cases handle with
  | none =>
    simp [rocsparse_roti_template] at hret
    simp [spec_status, hret.1]
  | some h =>
    cases hlog : roti_logging h nnz x_val x_ind y c s idx_base m with
    | none => simp [rocsparse_roti_template, hlog] at hret
    | some m0 =>
      rw [roti_template_of_logged h nnz x_val x_ind y c s idx_base m m0 hlog] at hret
      have hh : (some h : rocsparse_handle) ≠ none := by simp
      split_ifs at hret with h1 h2 h3 h4 h5 h6 h7 h8
      · simp only [Option.some.injEq, Prod.mk.injEq] at hret
        rw [← hret.1, spec_status, if_neg hh, if_pos h1]
      · simp only [Option.some.injEq, Prod.mk.injEq] at hret
        rw [← hret.1, spec_status, if_neg hh, if_neg h1, if_pos h2]
      · simp only [Option.some.injEq, Prod.mk.injEq] at hret
        rw [← hret.1, spec_status, if_neg hh, if_neg h1, if_neg h2, if_pos (Or.inl h3)]
      · simp only [Option.some.injEq, Prod.mk.injEq] at hret
        rw [← hret.1, spec_status, if_neg hh, if_neg h1, if_neg h2,
          if_pos (Or.inr (Or.inl h4))]
      · simp only [Option.some.injEq, Prod.mk.injEq] at hret
        rw [← hret.1, spec_status, if_neg hh, if_neg h1, if_neg h2,
          if_pos (Or.inr (Or.inr (Or.inl h5)))]
      · simp only [Option.some.injEq, Prod.mk.injEq] at hret
        rw [← hret.1, spec_status, if_neg hh, if_neg h1, if_neg h2,
          if_pos (Or.inr (Or.inr (Or.inr (Or.inl h6))))]
      · simp only [Option.some.injEq, Prod.mk.injEq] at hret
        rw [← hret.1, spec_status, if_neg hh, if_neg h1, if_neg h2,
          if_pos (Or.inr (Or.inr (Or.inr (Or.inr h7))))]
      · have hnn : ¬ (c = nullptr ∨ s = nullptr ∨ x_val = nullptr ∨ x_ind = nullptr ∨
            y = nullptr) := by
          rintro (h | h | h | h | h) <;> contradiction
        simp only [Option.some.injEq, Prod.mk.injEq] at hret
        rw [← hret.1, spec_status, if_neg hh, if_neg h1, if_neg h2, if_neg hnn]
      · have hnn : ¬ (c = nullptr ∨ s = nullptr ∨ x_val = nullptr ∨ x_ind = nullptr ∨
            y = nullptr) := by
          rintro (h | h | h | h | h) <;> contradiction
        rw [(roti_dispatch_frame h nnz x_val x_ind y c s idx_base m0 m1 st hret).1,
          spec_status, if_neg hh, if_neg h1, if_neg h2, if_neg hnn]

/-- The routine changes neither host nor device memory, whatever it returns. -/
theorem roti_memory_frame [BEq T] [One T] [Zero T] (handle : rocsparse_handle)
    (nnz : rocsparse_int) (x_val x_ind y c s : Ptr) (idx_base : rocsparse_index_base)
    (m m1 : Machine T) (st : rocsparse_status)
    (hret : rocsparse_roti_template handle nnz x_val x_ind y c s idx_base m = some (st, m1)) :
    m1.device = m.device ∧ m1.host = m.host := by
  cases handle with
  | none =>
    simp [rocsparse_roti_template] at hret
    rw [← hret.2]
    exact ⟨rfl, rfl⟩
  | some h =>
    cases hlog : roti_logging h nnz x_val x_ind y c s idx_base m with
    | none => simp [rocsparse_roti_template, hlog] at hret
    | some m0 =>
      have hf := roti_logging_frame h nnz x_val x_ind y c s idx_base m m0 hlog
      rw [roti_template_of_logged h nnz x_val x_ind y c s idx_base m m0 hlog] at hret
      split_ifs at hret <;>
        first
        | (simp only [Option.some.injEq, Prod.mk.injEq] at hret
           rw [← hret.2]
           exact ⟨hf.2.1, hf.2.2⟩)
        | (have hd := roti_dispatch_frame h nnz x_val x_ind y c s idx_base m0 m1 st hret
           exact ⟨hd.2.1.trans hf.2.1, hd.2.2.trans hf.2.2⟩)

/-- A validated call returns `success`. -/
theorem roti_validated_success [BEq T] [One T] [Zero T] (h : _rocsparse_handle)
    (nnz : rocsparse_int) (x_val x_ind y c s : Ptr) (idx_base : rocsparse_index_base)
    (m : Machine T)
    (hb : idx_base = rocsparse_index_base_zero ∨ idx_base = rocsparse_index_base_one)
    (hn : 0 ≤ nnz) (hc : c ≠ nullptr) (hs : s ≠ nullptr) (hx : x_val ≠ nullptr)
    (hi : x_ind ≠ nullptr) (hy : y ≠ nullptr) :
    ∃ m1, rocsparse_roti_template (some h) nnz x_val x_ind y c s idx_base m
      = some (rocsparse_status.success, m1) := by
  obtain ⟨m0, hlog⟩ := roti_logging_of_scalars h nnz x_val x_ind y c s idx_base m hc hs
  have hb' : ¬ (idx_base ≠ rocsparse_index_base_zero ∧ idx_base ≠ rocsparse_index_base_one) := by
    rcases hb with hb | hb <;> simp [hb]
  have hn' : ¬ nnz < 0 := not_lt.mpr hn
  rw [roti_template_of_logged h nnz x_val x_ind y c s idx_base m m0 hlog]
  simp only [hb', hn', hc, hs, hx, hi, hy, if_false]
  by_cases hz : nnz = 0
  · exact ⟨m0, by simp [hz]⟩
  · simp only [hz, if_false]
    unfold roti_dispatch
    cases hm : h.pointer_mode
    · simp only [load_of_ne_null _ hc, load_of_ne_null _ hs]
      split_ifs
      · exact ⟨_, rfl⟩
      · exact ⟨_, rfl⟩
    · exact ⟨_, rfl⟩

/-- A call that returns a status other than `success` leaves the kernel queue as
it was. -/
theorem roti_queue_frame [BEq T] [One T] [Zero T] (handle : rocsparse_handle)
    (nnz : rocsparse_int) (x_val x_ind y c s : Ptr) (idx_base : rocsparse_index_base)
    (m m1 : Machine T) (st : rocsparse_status)
    (hret : rocsparse_roti_template handle nnz x_val x_ind y c s idx_base m = some (st, m1))
    (hne : st ≠ .success) : m1.queue = m.queue := by
  cases handle with
  | none =>
    simp [rocsparse_roti_template] at hret
    rw [← hret.2]
  | some h =>
    cases hlog : roti_logging h nnz x_val x_ind y c s idx_base m with
    | none => simp [rocsparse_roti_template, hlog] at hret
    | some m0 =>
      have hf := roti_logging_frame h nnz x_val x_ind y c s idx_base m m0 hlog
      rw [roti_template_of_logged h nnz x_val x_ind y c s idx_base m m0 hlog] at hret
      split_ifs at hret <;>
        first
        | (simp only [Option.some.injEq, Prod.mk.injEq] at hret
           rw [← hret.2]
           exact hf.1)
        | exact absurd (roti_dispatch_frame h nnz x_val x_ind y c s idx_base m0 m1 st hret).1 hne

/-- Threads that each leave a memory state as it is leave it as it is when run
one after the other. -/
theorem run_threads_fixed (body : ThreadCtx → DevMem T → Option (DevMem T)) (d : DevMem T)
    (hbody : ∀ t, body t d = some d) (ts : List ThreadCtx) :
    run_threads body ts d = some d := by
  induction ts with
  | nil => rfl
  | cons t ts ih => simp only [run_threads, hbody t, ih]

/-- On its domain of validated sizes the truncating quotient of the launch
geometry is the floor quotient. -/
theorem roti_tdiv_eq (nnz : Int) (h1 : 1 ≤ nnz) :
    Int.tdiv (nnz - 1) ROTI_DIM = (nnz - 1) / 512 := by
  unfold ROTI_DIM
  exact Int.tdiv_eq_ediv (by omega) (by decide)

end Lemmas

/-! ## Theorems -/

/-- C1: a call with a null handle returns `invalid_handle`, whatever the other
arguments and the machine state are; nothing is read through the handle or any
other pointer before the check (the call returns, it does not fault) and the
machine is left as it was. -/
theorem roti_null_handle {T : Type} [BEq T] [One T] [Zero T] (nnz : rocsparse_int)
    (x_val x_ind y c s : Ptr) (idx_base : rocsparse_index_base) (m : Machine T) :
    rocsparse_roti_template none nnz x_val x_ind y c s idx_base m
      = some (rocsparse_status.invalid_handle, m) := by
  rfl

/-- C2: the call with a host-mode handle, an out-of-domain index base (`2`) and a
null `c` does not return `invalid_value`: it faults in the logging step, where
`*c` is evaluated before any check; the same call through a device-mode handle
returns `invalid_value`. -/
theorem roti_invalid_base_host_null_c_faults :
    rocsparse_roti_template (some hostHandle) 1 1 1 1 nullptr 1 2 machine0 = none ∧
    ∃ m1, rocsparse_roti_template (some deviceHandle) 1 1 1 1 nullptr 1 2 machine0
      = some (rocsparse_status.invalid_value, m1) := by
  constructor
  · rfl
  · exact ⟨_, rfl⟩

/-- Outside the faulting logging step the index-base check comes first: with a
non-null handle whose logging step completes (device pointer mode, or non-null
`c` and `s`), an index base other than zero and one yields `invalid_value` for
every `nnz` and every `x_val`, `x_ind`, `y`, without any kernel enqueued. -/
theorem roti_invalid_base_of_logged {T : Type} [BEq T] [One T] [Zero T]
    (h : _rocsparse_handle) (nnz : rocsparse_int) (x_val x_ind y c s : Ptr)
    (idx_base : rocsparse_index_base) (m : Machine T)
    (hlog : h.pointer_mode = .rocsparse_pointer_mode_device ∨ (c ≠ nullptr ∧ s ≠ nullptr))
    (hb0 : idx_base ≠ rocsparse_index_base_zero) (hb1 : idx_base ≠ rocsparse_index_base_one) :
    ∃ m1, rocsparse_roti_template (some h) nnz x_val x_ind y c s idx_base m
        = some (rocsparse_status.invalid_value, m1) ∧ m1.queue = m.queue := by
  have hex : ∃ m1, roti_logging h nnz x_val x_ind y c s idx_base m = some m1 := by
    rcases hlog with hm | ⟨hc, hs⟩
    · exact roti_logging_device h hm nnz x_val x_ind y c s idx_base m
    · exact roti_logging_of_scalars h nnz x_val x_ind y c s idx_base m hc hs
  obtain ⟨m1, hm1⟩ := hex
  refine ⟨m1, ?_, (roti_logging_frame h nnz x_val x_ind y c s idx_base m m1 hm1).1⟩
  simp [rocsparse_roti_template, hm1, hb0, hb1]

/-- C3: the call with a host-mode handle, a valid index base, `nnz = -1` and a
null `s` does not return `invalid_size`: it faults in the logging step, where
`*s` is evaluated before any check; the same call through a device-mode handle
returns `invalid_size`. -/
theorem roti_negative_size_host_null_s_faults :
    rocsparse_roti_template (some hostHandle) (-1) 1 1 1 1 nullptr
      rocsparse_index_base_zero machine0 = none ∧
    ∃ m1, rocsparse_roti_template (some deviceHandle) (-1) 1 1 1 1 nullptr
      rocsparse_index_base_zero machine0 = some (rocsparse_status.invalid_size, m1) := by
  constructor
  · rfl
  · exact ⟨_, rfl⟩

/-- Outside the faulting logging step the size check precedes the pointer
checks: with a non-null handle whose logging step completes, a valid index base
and `nnz < 0`, the status is `invalid_size` for every `x_val`, `x_ind`, `y`,
without any kernel enqueued. -/
theorem roti_invalid_size_of_logged {T : Type} [BEq T] [One T] [Zero T]
    (h : _rocsparse_handle) (nnz : rocsparse_int) (x_val x_ind y c s : Ptr)
    (idx_base : rocsparse_index_base) (m : Machine T)
    (hlog : h.pointer_mode = .rocsparse_pointer_mode_device ∨ (c ≠ nullptr ∧ s ≠ nullptr))
    (hb : idx_base = rocsparse_index_base_zero ∨ idx_base = rocsparse_index_base_one)
    (hn : nnz < 0) :
    ∃ m1, rocsparse_roti_template (some h) nnz x_val x_ind y c s idx_base m
        = some (rocsparse_status.invalid_size, m1) ∧ m1.queue = m.queue := by
  have hex : ∃ m1, roti_logging h nnz x_val x_ind y c s idx_base m = some m1 := by
    rcases hlog with hm | ⟨hc, hs⟩
    · exact roti_logging_device h hm nnz x_val x_ind y c s idx_base m
    · exact roti_logging_of_scalars h nnz x_val x_ind y c s idx_base m hc hs
  obtain ⟨m1, hm1⟩ := hex
  refine ⟨m1, ?_, (roti_logging_frame h nnz x_val x_ind y c s idx_base m m1 hm1).1⟩
  have hb' : ¬ (idx_base ≠ rocsparse_index_base_zero ∧ idx_base ≠ rocsparse_index_base_one) := by
    rcases hb with hb | hb <;> simp [hb]
  simp [rocsparse_roti_template, hm1, hb', hn]

/-- C4: with a host-mode handle, a valid index base, `nnz = 1` and four valid
pointers, the call with only `c` null and the call with only `s` null do not
return `invalid_pointer`: each faults in the logging step, which evaluates `*c`
and `*s` before the pointer checks; through a device-mode handle both calls
return `invalid_pointer`. -/
theorem roti_host_null_scalar_faults :
    rocsparse_roti_template (some hostHandle) 1 1 1 1 nullptr 1
      rocsparse_index_base_zero machine0 = none ∧
    rocsparse_roti_template (some hostHandle) 1 1 1 1 1 nullptr
      rocsparse_index_base_zero machine0 = none ∧
    (∃ m1, rocsparse_roti_template (some deviceHandle) 1 1 1 1 nullptr 1
      rocsparse_index_base_zero machine0 = some (rocsparse_status.invalid_pointer, m1)) ∧
    ∃ m1, rocsparse_roti_template (some deviceHandle) 1 1 1 1 1 nullptr
      rocsparse_index_base_zero machine0 = some (rocsparse_status.invalid_pointer, m1) := by
  refine ⟨rfl, rfl, ⟨_, rfl⟩, ⟨_, rfl⟩⟩

/-- Outside the faulting logging step a null pointer is reported: with a
non-null handle whose logging step completes, a valid index base and
`nnz ≥ 0`, a null pointer among `c`, `s`, `x_val`, `x_ind`, `y` yields
`invalid_pointer`, without any kernel enqueued.  This covers each of `x_val`,
`x_ind`, `y` null in both pointer modes and each of `c`, `s` null in device
pointer mode. -/
theorem roti_invalid_pointer_of_logged {T : Type} [BEq T] [One T] [Zero T]
    (h : _rocsparse_handle) (nnz : rocsparse_int) (x_val x_ind y c s : Ptr)
    (idx_base : rocsparse_index_base) (m : Machine T)
    (hlog : h.pointer_mode = .rocsparse_pointer_mode_device ∨ (c ≠ nullptr ∧ s ≠ nullptr))
    (hb : idx_base = rocsparse_index_base_zero ∨ idx_base = rocsparse_index_base_one)
    (hn : 0 ≤ nnz)
    (hnull : c = nullptr ∨ s = nullptr ∨ x_val = nullptr ∨ x_ind = nullptr ∨ y = nullptr) :
    ∃ m1, rocsparse_roti_template (some h) nnz x_val x_ind y c s idx_base m
        = some (rocsparse_status.invalid_pointer, m1) ∧ m1.queue = m.queue := by
  have hex : ∃ m1, roti_logging h nnz x_val x_ind y c s idx_base m = some m1 := by
    rcases hlog with hm | ⟨hc, hs⟩
    · exact roti_logging_device h hm nnz x_val x_ind y c s idx_base m
    · exact roti_logging_of_scalars h nnz x_val x_ind y c s idx_base m hc hs
  obtain ⟨m1, hm1⟩ := hex
  refine ⟨m1, ?_, (roti_logging_frame h nnz x_val x_ind y c s idx_base m m1 hm1).1⟩
  have hb' : ¬ (idx_base ≠ rocsparse_index_base_zero ∧ idx_base ≠ rocsparse_index_base_one) := by
    rcases hb with hb | hb <;> simp [hb]
  have hn' : ¬ nnz < 0 := not_lt.mpr hn
  simp only [rocsparse_roti_template, hm1, hb', hn', if_false]
  by_cases h1 : c = nullptr
  · simp [h1]
  by_cases h2 : s = nullptr
  · simp [h1, h2]
  by_cases h3 : x_val = nullptr
  · simp [h1, h2, h3]
  by_cases h4 : x_ind = nullptr
  · simp [h1, h2, h3, h4]
  by_cases h5 : y = nullptr
  · simp [h1, h2, h3, h4, h5]
  · rcases hnull with h | h | h | h | h <;> contradiction

/-- C5: the routine returns `success` exactly when the handle is non-null, the
index base is zero or one, `nnz ≥ 0` and all five of `c`, `s`, `x_val`, `x_ind`,
`y` are non-null (so it does for every such `nnz`, every pointer mode and every
scalar value in memory); and it never returns `internal_error`. -/
theorem roti_success_iff {T : Type} [BEq T] [One T] [Zero T] (handle : rocsparse_handle)
    (nnz : rocsparse_int) (x_val x_ind y c s : Ptr) (idx_base : rocsparse_index_base)
    (m : Machine T) :
    ((∃ m1, rocsparse_roti_template handle nnz x_val x_ind y c s idx_base m
        = some (rocsparse_status.success, m1)) ↔
      (handle ≠ none ∧
        (idx_base = rocsparse_index_base_zero ∨ idx_base = rocsparse_index_base_one) ∧
        0 ≤ nnz ∧ c ≠ nullptr ∧ s ≠ nullptr ∧ x_val ≠ nullptr ∧ x_ind ≠ nullptr ∧
        y ≠ nullptr)) ∧
    ∀ m1, rocsparse_roti_template handle nnz x_val x_ind y c s idx_base m
        ≠ some (rocsparse_status.internal_error, m1) := by
  constructor
  · constructor
    · rintro ⟨m1, hret⟩
      have hst := roti_returned_status handle nnz x_val x_ind y c s idx_base m m1 _ hret
      unfold spec_status at hst
      split_ifs at hst with h1 h2 h3 h4
      · push_neg at h4
        refine ⟨h1, ?_, not_lt.mp h3, h4.1, h4.2.1, h4.2.2.1, h4.2.2.2.1, h4.2.2.2.2⟩
        by_contra hb
        push_neg at hb
        exact h2 hb
    · rintro ⟨hh, hb, hn, hc, hs, hx, hi, hy⟩
      cases handle with
      | none => exact absurd rfl hh
      | some h => exact roti_validated_success h nnz x_val x_ind y c s idx_base m hb hn hc hs hx hi hy
  · intro m1 hret
    have hst := roti_returned_status handle nnz x_val x_ind y c s idx_base m m1 _ hret
    unfold spec_status at hst
    split_ifs at hst

/-- C6: a call that passes validation (non-null handle in either pointer mode,
index base zero or one, five non-null pointers) with `nnz = 0` returns
`success`, enqueues no kernel and leaves device memory (the buffers `x_val`,
`x_ind`, `y`) and host memory as they were. -/
theorem roti_quick_return {T : Type} [BEq T] [One T] [Zero T] (h : _rocsparse_handle)
    (x_val x_ind y c s : Ptr) (idx_base : rocsparse_index_base) (m : Machine T)
    (hb : idx_base = rocsparse_index_base_zero ∨ idx_base = rocsparse_index_base_one)
    (hc : c ≠ nullptr) (hs : s ≠ nullptr) (hx : x_val ≠ nullptr) (hi : x_ind ≠ nullptr)
    (hy : y ≠ nullptr) :
    ∃ m1, rocsparse_roti_template (some h) 0 x_val x_ind y c s idx_base m
        = some (rocsparse_status.success, m1) ∧
      m1.queue = m.queue ∧ m1.device = m.device ∧ m1.host = m.host := by
  obtain ⟨m0, hlog⟩ := roti_logging_of_scalars h 0 x_val x_ind y c s idx_base m hc hs
  have hf := roti_logging_frame h 0 x_val x_ind y c s idx_base m m0 hlog
  have hb' : ¬ (idx_base ≠ rocsparse_index_base_zero ∧ idx_base ≠ rocsparse_index_base_one) := by
    rcases hb with hb | hb <;> simp [hb]
  refine ⟨m0, ?_, hf⟩
  rw [roti_template_of_logged h 0 x_val x_ind y c s idx_base m m0 hlog]
  simp [hb', hc, hs, hx, hi, hy]

/-- Witness of C6: a host-mode call with `nnz = 0` on the all-zero machine
with every pointer at address 1. -/
theorem roti_quick_return_witness :
    ∃ m1, rocsparse_roti_template (some hostHandle) 0 1 1 1 1 1 rocsparse_index_base_zero
        machine0 = some (rocsparse_status.success, m1) ∧
      m1.queue = machine0.queue ∧ m1.device = machine0.device ∧ m1.host = machine0.host :=
  roti_quick_return hostHandle 1 1 1 1 1 rocsparse_index_base_zero machine0
    (Or.inl rfl) (by decide) (by decide) (by decide) (by decide) (by decide)

/-- C7: a validated call in host pointer mode with `nnz ≥ 1` whose host-resident
scalars satisfy `*c == 1` and `*s == 0` returns `success`, enqueues no kernel
(on any stream) and leaves device memory, hence `x_val` and `y`, as it was. -/
theorem roti_host_identity {T : Type} [BEq T] [One T] [Zero T] (h : _rocsparse_handle)
    (nnz : rocsparse_int) (x_val x_ind y c s : Ptr) (idx_base : rocsparse_index_base)
    (m : Machine T)
    (hm : h.pointer_mode = .rocsparse_pointer_mode_host)
    (hb : idx_base = rocsparse_index_base_zero ∨ idx_base = rocsparse_index_base_one)
    (hn : 1 ≤ nnz) (hc : c ≠ nullptr) (hs : s ≠ nullptr) (hx : x_val ≠ nullptr)
    (hi : x_ind ≠ nullptr) (hy : y ≠ nullptr)
    (hc1 : (m.host c == 1) = true) (hs0 : (m.host s == 0) = true) :
    ∃ m1, rocsparse_roti_template (some h) nnz x_val x_ind y c s idx_base m
        = some (rocsparse_status.success, m1) ∧
      m1.queue = m.queue ∧ m1.device = m.device := by
  obtain ⟨m0, hlog⟩ := roti_logging_of_scalars h nnz x_val x_ind y c s idx_base m hc hs
  have hf := roti_logging_frame h nnz x_val x_ind y c s idx_base m m0 hlog
  have hb' : ¬ (idx_base ≠ rocsparse_index_base_zero ∧ idx_base ≠ rocsparse_index_base_one) := by
    rcases hb with hb | hb <;> simp [hb]
  have hn' : ¬ nnz < 0 := not_lt.mpr (le_trans (by decide : (0 : Int) ≤ 1) hn)
  have hz : ¬ nnz = 0 := fun h0 => absurd (h0 ▸ hn : (1 : Int) ≤ 0) (by decide)
  refine ⟨m0, ?_, hf.1, hf.2.1⟩
  rw [roti_template_of_logged h nnz x_val x_ind y c s idx_base m m0 hlog]
  simp only [hb', hn', hc, hs, hx, hi, hy, hz, if_false]
  unfold roti_dispatch
  simp only [hm, load_of_ne_null _ hc, load_of_ne_null _ hs, hf.2.2, hc1, hs0, Bool.and_self,
    if_true]

/-- Witness of C7: host mode, `nnz = 1`, `c` at host address 1 (holding 1), `s`
at host address 2 (holding 0). -/
theorem roti_host_identity_witness :
    ∃ m1, rocsparse_roti_template (some hostHandle) 1 1 1 1 1 2 rocsparse_index_base_zero
        machineId = some (rocsparse_status.success, m1) ∧
      m1.queue = machineId.queue ∧ m1.device = machineId.device :=
  roti_host_identity hostHandle 1 1 1 1 1 2 rocsparse_index_base_zero machineId rfl
    (Or.inl rfl) (by decide) (by decide) (by decide) (by decide) (by decide) (by decide)
    (by decide) (by decide)

/-- C8: a validated call in device pointer mode with `nnz ≥ 1` returns `success`
after enqueueing `roti_kernel_device_scalar` and without touching device memory;
when the device-resident scalars satisfy `*c == 1` and `*s == 0`, every thread
of that kernel returns before calling `roti_device` (its result is the
unchanged memory whatever `roti_device` is), so running the enqueued launch
leaves device memory, hence `x_val` and `y`, as it was before the call. -/
theorem roti_device_identity {T : Type} [BEq T] [One T] [Zero T] (h : _rocsparse_handle)
    (nnz : rocsparse_int) (x_val x_ind y c s : Ptr) (idx_base : rocsparse_index_base)
    (m : Machine T)
    (hm : h.pointer_mode = .rocsparse_pointer_mode_device)
    (hb : idx_base = rocsparse_index_base_zero ∨ idx_base = rocsparse_index_base_one)
    (hn : 1 ≤ nnz) (hc : c ≠ nullptr) (hs : s ≠ nullptr) (hx : x_val ≠ nullptr)
    (hi : x_ind ≠ nullptr) (hy : y ≠ nullptr)
    (hc1 : (m.device.vals c == 1) = true) (hs0 : (m.device.vals s == 0) = true) :
    ∃ (m1 : Machine T) (l : Launch T),
      rocsparse_roti_template (some h) nnz x_val x_ind y c s idx_base m
        = some (rocsparse_status.success, m1) ∧
      m1.queue = m.queue ++ [l] ∧
      l.kernel = KernelCall.device_scalar nnz x_val x_ind y c s idx_base ∧
      m1.device = m.device ∧
      ∀ roti_device : RotiDevice T,
        (∀ t : ThreadCtx, roti_kernel_device_scalar roti_device t nnz x_val x_ind y c s
            idx_base m1.device = some m.device) ∧
        run_launch roti_device l m1.device = some m.device := by
  obtain ⟨m0, hlog⟩ := roti_logging_of_scalars h nnz x_val x_ind y c s idx_base m hc hs
  have hf := roti_logging_frame h nnz x_val x_ind y c s idx_base m m0 hlog
  have hb' : ¬ (idx_base ≠ rocsparse_index_base_zero ∧ idx_base ≠ rocsparse_index_base_one) := by
    rcases hb with hb | hb <;> simp [hb]
  have hn' : ¬ nnz < 0 := not_lt.mpr (le_trans (by decide : (0 : Int) ≤ 1) hn)
  have hz : ¬ nnz = 0 := fun h0 => absurd (h0 ▸ hn : (1 : Int) ≤ 0) (by decide)
  have hthread : ∀ (roti_device : RotiDevice T) (t : ThreadCtx),
      roti_kernel_device_scalar roti_device t nnz x_val x_ind y c s idx_base m.device
        = some m.device := by
    intro roti_device t
    unfold roti_kernel_device_scalar
    simp only [load_of_ne_null _ hc, load_of_ne_null _ hs, hc1, hs0, Bool.and_self, if_true]
  refine ⟨hipLaunchKernelGGL (.device_scalar nnz x_val x_ind y c s idx_base)
      (roti_blocks nnz) roti_threads 0 h.stream m0,
    { kernel := .device_scalar nnz x_val x_ind y c s idx_base, blocks := roti_blocks nnz,
      threads := roti_threads, sharedMem := 0, stream := h.stream }, ?_, ?_, rfl, hf.2.1, ?_⟩
  · rw [roti_template_of_logged h nnz x_val x_ind y c s idx_base m m0 hlog]
    simp only [hb', hn', hc, hs, hx, hi, hy, hz, if_false]
    unfold roti_dispatch
    simp only [hm]
  · show m0.queue ++ _ = m.queue ++ _
    rw [hf.1]
  · intro roti_device
    have hd : (hipLaunchKernelGGL (.device_scalar nnz x_val x_ind y c s idx_base)
        (roti_blocks nnz) roti_threads 0 h.stream m0).device = m.device := hf.2.1
    rw [hd]
    exact ⟨hthread roti_device,
      run_threads_fixed _ m.device (fun t => hthread roti_device t) _⟩

/-- Witness of C8: device mode, `nnz = 1`, `c` at device address 1 (holding 1),
`s` at device address 2 (holding 0). -/
theorem roti_device_identity_witness :
    ∃ (m1 : Machine Int) (l : Launch Int),
      rocsparse_roti_template (some deviceHandle) 1 1 1 1 1 2 rocsparse_index_base_zero
        machineId = some (rocsparse_status.success, m1) ∧
      m1.queue = machineId.queue ++ [l] ∧
      l.kernel = KernelCall.device_scalar 1 1 1 1 1 2 rocsparse_index_base_zero ∧
      m1.device = machineId.device ∧
      ∀ roti_device : RotiDevice Int,
        (∀ t : ThreadCtx, roti_kernel_device_scalar roti_device t 1 1 1 1 1 2
            rocsparse_index_base_zero m1.device = some machineId.device) ∧
        run_launch roti_device l m1.device = some machineId.device :=
  roti_device_identity deviceHandle 1 1 1 1 1 2 rocsparse_index_base_zero machineId rfl
    (Or.inl rfl) (by decide) (by decide) (by decide) (by decide) (by decide) (by decide)
    (by decide) (by decide)

/-- C9: whenever the routine returns a status other than `success`, the kernel
queue, device memory (the buffers `x_val`, `x_ind`, `y`) and host memory are as
they were before the call. -/
theorem roti_failure_untouched {T : Type} [BEq T] [One T] [Zero T]
    (handle : rocsparse_handle) (nnz : rocsparse_int) (x_val x_ind y c s : Ptr)
    (idx_base : rocsparse_index_base) (m m1 : Machine T) (st : rocsparse_status)
    (hret : rocsparse_roti_template handle nnz x_val x_ind y c s idx_base m = some (st, m1))
    (hne : st ≠ rocsparse_status.success) :
    m1.queue = m.queue ∧ m1.device = m.device ∧ m1.host = m.host :=
  ⟨roti_queue_frame handle nnz x_val x_ind y c s idx_base m m1 st hret hne,
    roti_memory_frame handle nnz x_val x_ind y c s idx_base m m1 st hret⟩

/-- Witness of C9: the null-handle call, which returns `invalid_handle`. -/
theorem roti_failure_untouched_witness :
    rocsparse_roti_template none 5 1 1 1 1 1 rocsparse_index_base_zero machine0
        = some (rocsparse_status.invalid_handle, machine0) ∧
      rocsparse_status.invalid_handle ≠ rocsparse_status.success ∧
      machine0.queue = machine0.queue ∧ machine0.device = machine0.device ∧
      machine0.host = machine0.host :=
  ⟨rfl, by decide,
    roti_failure_untouched none 5 1 1 1 1 1 rocsparse_index_base_zero machine0 machine0
      rocsparse_status.invalid_handle rfl (by decide)⟩

/-- C10: for `1 ≤ nnz ≤ 2^31 - 1` no step of `(nnz - 1) / ROTI_DIM + 1` leaves
the 32-bit signed range, the computed value is the exact one and equals
`ceil (nnz / 512)`, and the grid dimension built from it satisfies
`blocks ≥ 1`, `blocks * 512 ≥ nnz` and `(blocks - 1) * 512 < nnz`, with 512
threads per block. -/
theorem roti_blocks_ceil (nnz : Int) (h1 : 1 ≤ nnz) (h2 : nnz ≤ 2147483647) :
    (-2147483648 ≤ nnz - 1 ∧ nnz - 1 ≤ 2147483647) ∧
    (-2147483648 ≤ Int.tdiv (nnz - 1) ROTI_DIM ∧ Int.tdiv (nnz - 1) ROTI_DIM ≤ 2147483647) ∧
    (-2147483648 ≤ Int.tdiv (nnz - 1) ROTI_DIM + 1 ∧
      Int.tdiv (nnz - 1) ROTI_DIM + 1 ≤ 2147483647) ∧
    roti_blocks_int nnz = Int.tdiv (nnz - 1) ROTI_DIM + 1 ∧
    ((roti_blocks nnz).x : Int) = roti_blocks_int nnz ∧
    ((roti_blocks nnz).x : Int) = ⌈(nnz : ℚ) / 512⌉ ∧
    roti_threads.x = 512 ∧
    1 ≤ (roti_blocks nnz).x ∧
    nnz ≤ ((roti_blocks nnz).x : Int) * (roti_threads.x : Int) ∧
    (((roti_blocks nnz).x : Int) - 1) * (roti_threads.x : Int) < nnz := by
  have hq := roti_tdiv_eq nnz h1
  have hbi : roti_blocks_int nnz = (nnz - 1) / 512 + 1 := by
    unfold roti_blocks_int int32_wrap
    rw [show (nnz - 1 + 2147483648) % 4294967296 - 2147483648 = nnz - 1 by omega, hq]
    omega
  have hx : ((roti_blocks nnz).x : Int) = (nnz - 1) / 512 + 1 := by
    unfold roti_blocks to_uint32
    simp only
    rw [hbi]
    omega
  have ht : roti_threads.x = 512 := by decide
  have hceil : ⌈(nnz : ℚ) / 512⌉ = (nnz - 1) / 512 + 1 := by
    rw [Int.ceil_eq_iff]
    constructor
    · rw [lt_div_iff₀ (by norm_num)]
      have : ((nnz - 1) / 512 + 1 - 1) * 512 < nnz := by omega
      exact_mod_cast this
    · rw [div_le_iff₀ (by norm_num)]
      have : nnz ≤ ((nnz - 1) / 512 + 1) * 512 := by omega
      exact_mod_cast this
  rw [hq, hbi, hx, ht, hceil]
  refine ⟨by omega, by omega, by omega, rfl, rfl, rfl, rfl, ?_, by push_cast; omega,
    by push_cast; omega⟩
  have : (1 : Int) ≤ ((roti_blocks nnz).x : Int) := by rw [hx]; omega
  exact_mod_cast this

/-- Witness of C10: `nnz = 513` needs two blocks. -/
theorem roti_blocks_ceil_witness :
    (1 : Int) ≤ 513 ∧ (513 : Int) ≤ 2147483647 ∧ ((roti_blocks 513).x : Int) = ⌈((513 : Int) : ℚ) / 512⌉ :=
  ⟨by decide, by decide, (roti_blocks_ceil 513 (by decide) (by decide)).2.2.2.2.2.1⟩

/-! ## Auxiliary lemmas on synchronisation -/

section SyncLemmas

variable {T : Type} [BEq T] [One T] [Zero T]

/-- A queue of one launch runs that launch. -/
theorem run_queue_singleton (rd : RotiDevice T) (l : Launch T) (d : DevMem T) :
    run_queue rd [l] d = run_launch rd l d := by
  simp only [run_queue]
  cases run_launch rd l d <;> rfl

/-- A call that returns without enqueueing leaves device memory as it is after
synchronisation. -/
theorem sync_of_unchanged (rd : RotiDevice T) (m m0 : Machine T) (st : rocsparse_status)
    (hq : m0.queue = m.queue) (hd : m0.device = m.device) :
    (run_queue rd (m0.queue.drop m.queue.length) m0.device).map (fun d => (st, d))
      = some (st, m.device) := by
  rw [hq, List.drop_length, hd]
  rfl

/-- A call that enqueues one launch: synchronisation runs that launch. -/
theorem sync_of_launch (rd : RotiDevice T) (m m0 : Machine T) (st : rocsparse_status)
    (k : KernelCall T) (b t : dim3) (sh : Nat) (stream : hipStream_t)
    (hq : m0.queue = m.queue) (hd : m0.device = m.device) :
    (run_queue rd ((hipLaunchKernelGGL k b t sh stream m0).queue.drop m.queue.length)
        (hipLaunchKernelGGL k b t sh stream m0).device).map (fun d => (st, d))
      = (run_launch rd
          { kernel := k, blocks := b, threads := t, sharedMem := sh, stream := stream }
          m.device).map (fun d => (st, d)) := by
  show (run_queue rd ((m0.queue ++ [_]).drop m.queue.length) m0.device).map _ = _
  rw [hq, List.drop_left, run_queue_singleton, hd]

/-- A call with a non-null handle whose logging step completes, followed by
synchronisation: the validation chain, then the launch selected by the pointer
mode run on device memory. -/
theorem roti_then_sync_of_logged (rd : RotiDevice T) (h : _rocsparse_handle)
    (nnz : rocsparse_int) (x_val x_ind y c s : Ptr) (idx_base : rocsparse_index_base)
    (m m0 : Machine T)
    (hlog : roti_logging h nnz x_val x_ind y c s idx_base m = some m0) :
    roti_then_sync rd (some h) nnz x_val x_ind y c s idx_base m =
      if idx_base ≠ rocsparse_index_base_zero ∧ idx_base ≠ rocsparse_index_base_one then
        some (.invalid_value, m.device)
      else if nnz < 0 then some (.invalid_size, m.device)
      else if c = nullptr then some (.invalid_pointer, m.device)
      else if s = nullptr then some (.invalid_pointer, m.device)
      else if x_val = nullptr then some (.invalid_pointer, m.device)
      else if x_ind = nullptr then some (.invalid_pointer, m.device)
      else if y = nullptr then some (.invalid_pointer, m.device)
      else if nnz = 0 then some (.success, m.device)
      else
        match h.pointer_mode with
        | .rocsparse_pointer_mode_device =>
          (run_launch rd
            { kernel := .device_scalar nnz x_val x_ind y c s idx_base,
              blocks := roti_blocks nnz, threads := roti_threads, sharedMem := 0,
              stream := h.stream } m.device).map (fun d => (rocsparse_status.success, d))
        | .rocsparse_pointer_mode_host =>
          if (m.host c == 1 && m.host s == 0) = true then some (.success, m.device)
          else
            (run_launch rd
              { kernel := .host_scalar nnz x_val x_ind y (m.host c) (m.host s) idx_base,
                blocks := roti_blocks nnz, threads := roti_threads, sharedMem := 0,
                stream := h.stream } m.device).map (fun d => (rocsparse_status.success, d)) := by
  have hf := roti_logging_frame h nnz x_val x_ind y c s idx_base m m0 hlog
  unfold roti_then_sync
  rw [roti_template_of_logged h nnz x_val x_ind y c s idx_base m m0 hlog]
  by_cases h1 : idx_base ≠ rocsparse_index_base_zero ∧ idx_base ≠ rocsparse_index_base_one
  · simp only [if_pos h1, Option.some_bind]
    exact sync_of_unchanged rd m m0 _ hf.1 hf.2.1
  simp only [if_neg h1]
  by_cases h2 : nnz < 0
  · simp only [if_pos h2, Option.some_bind]
    exact sync_of_unchanged rd m m0 _ hf.1 hf.2.1
  simp only [if_neg h2]
  by_cases h3 : c = nullptr
  · simp only [if_pos h3, Option.some_bind]
    exact sync_of_unchanged rd m m0 _ hf.1 hf.2.1
  simp only [if_neg h3]
  by_cases h4 : s = nullptr
  · simp only [if_pos h4, Option.some_bind]
    exact sync_of_unchanged rd m m0 _ hf.1 hf.2.1
  simp only [if_neg h4]
  by_cases h5 : x_val = nullptr
  · simp only [if_pos h5, Option.some_bind]
    exact sync_of_unchanged rd m m0 _ hf.1 hf.2.1
  simp only [if_neg h5]
  by_cases h6 : x_ind = nullptr
  · simp only [if_pos h6, Option.some_bind]
    exact sync_of_unchanged rd m m0 _ hf.1 hf.2.1
  simp only [if_neg h6]
  by_cases h7 : y = nullptr
  · simp only [if_pos h7, Option.some_bind]
    exact sync_of_unchanged rd m m0 _ hf.1 hf.2.1
  simp only [if_neg h7]
  by_cases h8 : nnz = 0
  · simp only [if_pos h8, Option.some_bind]
    exact sync_of_unchanged rd m m0 _ hf.1 hf.2.1
  simp only [if_neg h8]
  unfold roti_dispatch
  cases hm : h.pointer_mode
  · simp only [load_of_ne_null _ h3, load_of_ne_null _ h4, hf.2.2]
    by_cases hid : (m.host c == 1 && m.host s == 0) = true
    · simp only [if_pos hid, Option.some_bind]
      exact sync_of_unchanged rd m m0 _ hf.1 hf.2.1
    · simp only [if_neg hid, Option.some_bind]
      exact sync_of_launch rd m m0 _ _ _ _ _ _ hf.1 hf.2.1
  · simp only [Option.some_bind]
    exact sync_of_launch rd m m0 _ _ _ _ _ _ hf.1 hf.2.1

end SyncLemmas

/-! ## Auxiliary lemmas on the threads of a launch -/

section ThreadLemmas

variable {T : Type}

/-- The global indices of the threads of a launch are `0, 1, …`, in order. -/
theorem grid_threads_indices (B D : Nat) :
    (grid_threads B D).map global_index = List.range (B * D) := by
  have hmap : (grid_threads B D).map global_index
      = (List.range B).flatMap fun b => (List.range D).map fun i => b * D + i := by
    simp only [grid_threads, List.map_flatMap, List.map_map]
    rfl
  rw [hmap]
  clear hmap
  induction B with
  | zero => simp
  | succ B ih =>
    rw [List.range_succ, List.flatMap_append, ih, Nat.succ_mul, List.range_add]
    simp

/-- Threads whose body is a total update indexed by the global index: running
them is folding the update over their global indices. -/
theorem run_threads_fold (body : ThreadCtx → DevMem T → Option (DevMem T))
    (f : Nat → DevMem T → DevMem T) (hbody : ∀ t d, body t d = some (f (global_index t) d))
    (ts : List ThreadCtx) (d : DevMem T) :
    run_threads body ts d = some ((ts.map global_index).foldl (fun d g => f g d) d) := by
  induction ts generalizing d with
  | nil => rfl
  | cons t ts ih => simp only [run_threads, hbody t d, ih, List.map_cons, List.foldl_cons]

/-- The grid dimension on validated sizes: no wrap-around occurs. -/
theorem roti_blocks_x (nnz : Int) (h1 : 1 ≤ nnz) (h2 : nnz ≤ 2147483647) :
    ((roti_blocks nnz).x : Int) = (nnz - 1) / 512 + 1 := by
  have hq := roti_tdiv_eq nnz h1
  unfold roti_blocks to_uint32 roti_blocks_int int32_wrap
  simp only
  rw [show (nnz - 1 + 2147483648) % 4294967296 - 2147483648 = nnz - 1 by omega, hq]
  omega

/-- The block dimension is 512. -/
theorem roti_threads_x : roti_threads.x = 512 := by decide

/-- The quotient `(nnz - 1) / 512 + 1` is `ceil (nnz / 512)`. -/
theorem roti_quotient_ceil (nnz : Int) :
    ⌈(nnz : ℚ) / 512⌉ = (nnz - 1) / 512 + 1 := by
  rw [Int.ceil_eq_iff]
  constructor
  · rw [lt_div_iff₀ (by norm_num)]
    have : ((nnz - 1) / 512 + 1 - 1) * 512 < nnz := by omega
    exact_mod_cast this
  · rw [div_le_iff₀ (by norm_num)]
    have : nnz ≤ ((nnz - 1) / 512 + 1) * 512 := by omega
    exact_mod_cast this

/-- The launch covers every entry. -/
theorem roti_grid_covers (n : Nat) (h1 : 1 ≤ n) (h2 : n ≤ 2147483647) :
    n ≤ (roti_blocks (n : Int)).x * roti_threads.x := by
  have hx := roti_blocks_x (n : Int) (by omega) (by omega)
  rw [roti_threads_x]
  omega

end ThreadLemmas

/-! ## Auxiliary lemmas on the rotation update -/

section RotationLemmas

variable {T : Type} [Mul T] [Add T] [Sub T]

/-- An entry at or beyond `nnz` is left alone. -/
theorem roti_entry_beyond (i : Nat) (nnz : Int) (x_val x_ind y : Ptr) (c s : T)
    (idx_base : rocsparse_index_base) (d : DevMem T) (hi : nnz ≤ (i : Int)) :
    roti_entry i nnz x_val x_ind y c s idx_base d = d := by
  unfold roti_entry
  rw [if_pos hi]

/-- The state after the updates of entries `0, …, k - 1`, over cells laid out so
that the cells `x_val[i]` and the cells `ya i` of `y` are pairwise distinct:
the entries below `k` are rotated, the entries from `k` on and all other cells
are as at the start. -/
theorem roti_fold_range (n : Nat) (x_val x_ind y : Ptr) (c s : T)
    (idx_base : rocsparse_index_base) (d0 : DevMem T) (ya : Nat → Nat)
    (hya : ∀ i, ya i = y_addr y (d0.ints (x_ind + i) - idx_base))
    (hsep : ∀ i j, i < n → j < n → x_val + i ≠ ya j)
    (hdist : ∀ i j, i < n → j < n → i ≠ j → ya i ≠ ya j) (k : Nat) :
    ((List.range k).foldl
        (fun d g => roti_entry g (n : Int) x_val x_ind y c s idx_base d) d0).ints = d0.ints ∧
    (∀ i, i < k → i < n →
      ((List.range k).foldl
          (fun d g => roti_entry g (n : Int) x_val x_ind y c s idx_base d) d0).vals (x_val + i)
        = c * d0.vals (x_val + i) - s * d0.vals (ya i) ∧
      ((List.range k).foldl
          (fun d g => roti_entry g (n : Int) x_val x_ind y c s idx_base d) d0).vals (ya i)
        = s * d0.vals (x_val + i) + c * d0.vals (ya i)) ∧
    (∀ i, k ≤ i → i < n →
      ((List.range k).foldl
          (fun d g => roti_entry g (n : Int) x_val x_ind y c s idx_base d) d0).vals (x_val + i)
        = d0.vals (x_val + i) ∧
      ((List.range k).foldl
          (fun d g => roti_entry g (n : Int) x_val x_ind y c s idx_base d) d0).vals (ya i)
        = d0.vals (ya i)) ∧
    (∀ a, (∀ i, i < n → a ≠ x_val + i ∧ a ≠ ya i) →
      ((List.range k).foldl
          (fun d g => roti_entry g (n : Int) x_val x_ind y c s idx_base d) d0).vals a
        = d0.vals a) := by
  induction k with
  | zero =>
    refine ⟨rfl, ?_, ?_, ?_⟩
    · intro i hi
      exact absurd hi (Nat.not_lt_zero i)
    · intro i _ _
      exact ⟨rfl, rfl⟩
    · intro a _
      rfl
  | succ k ih =>
    rw [List.range_succ, List.foldl_append]
    simp only [List.foldl_cons, List.foldl_nil]
    generalize (List.range k).foldl
      (fun d g => roti_entry g (n : Int) x_val x_ind y c s idx_base d) d0 = d at ih ⊢
    obtain ⟨hints, hdone, htodo, hother⟩ := ih
    by_cases hk : k < n
    · have hnot : ¬ ((n : Int) ≤ (k : Int)) := by omega
      have hxk := (htodo k (le_refl k) hk).1
      have hyk := (htodo k (le_refl k) hk).2
      have hstep : roti_entry k (n : Int) x_val x_ind y c s idx_base d =
          { d with vals := (Function.update (Function.update d.vals (x_val + k)
              (c * d0.vals (x_val + k) - s * d0.vals (ya k))) (ya k)
              (s * d0.vals (x_val + k) + c * d0.vals (ya k))) } := by
        unfold roti_entry
        rw [if_neg hnot]
        simp only [hints, ← hya k, hxk, hyk]
      rw [hstep]
      refine ⟨hints, ?_, ?_, ?_⟩
      · intro i hi hin
        by_cases hik : i = k
        · subst hik
          constructor
          · show Function.update (Function.update d.vals _ _) _ _ _ = _
            rw [Function.update_apply, if_neg (hsep i i hin hin), Function.update_apply,
              if_pos rfl]
          · show Function.update (Function.update d.vals _ _) _ _ _ = _
            rw [Function.update_apply, if_pos rfl]
        · have hlt : i < k := by omega
          have hxi : x_val + i ≠ x_val + k := fun h => hik (Nat.add_left_cancel h)
          simp only [Function.update_apply, if_neg (hsep i k hin hk), if_neg hxi,
            if_neg (hdist i k hin hk hik), if_neg (hsep k i hk hin).symm]
          exact hdone i hlt hin
      · intro i hi hin
        have hik : i ≠ k := by omega
        have hxi : x_val + i ≠ x_val + k := fun h => hik (Nat.add_left_cancel h)
        simp only [Function.update_apply, if_neg (hsep i k hin hk), if_neg hxi,
          if_neg (hdist i k hin hk hik), if_neg (hsep k i hk hin).symm]
        exact htodo i (by omega) hin
      · intro a ha
        simp only [Function.update_apply, if_neg (ha k hk).2, if_neg (ha k hk).1]
        exact hother a ha
    · rw [roti_entry_beyond k (n : Int) x_val x_ind y c s idx_base d (by omega)]
      refine ⟨hints, ?_, ?_, hother⟩
      · intro i _ hin
        exact hdone i (by omega) hin
      · intro i hi hin
        exact htodo i (by omega) hin

/-- The address of `y[j]` for a natural index `j`. -/
theorem y_addr_nat (y j : Nat) : y_addr y (j : Int) = y + j := by
  unfold y_addr
  omega

/-- Cells of `y` at distinct non-negative indices are distinct. -/
theorem y_addr_ne (y : Nat) (a b : Int) (ha : 0 ≤ a) (hb : 0 ≤ b) (hab : a ≠ b) :
    y_addr y a ≠ y_addr y b := by
  unfold y_addr
  omega

/-- A cell of the buffer `x_val` of `n` cells is not a cell of the buffer `y` of
`ny` cells when the buffers do not overlap. -/
theorem x_val_ne_y_addr (x_val y n ny i : Nat) (idx : Int)
    (hlay : x_val + n ≤ y ∨ y + ny ≤ x_val) (hi : i < n) (h0 : 0 ≤ idx) (h1 : idx < ny) :
    x_val + i ≠ y_addr y idx := by
  unfold y_addr
  omega

/-- Running the launch of the by-value kernel with the rotation update is
folding the entry update over the global indices of the grid. -/
theorem run_launch_host_scalar [BEq T] [One T] [Zero T] (nnz : rocsparse_int) (x_val x_ind y : Ptr) (c s : T)
    (idx_base : rocsparse_index_base) (b t : dim3) (sh : Nat) (stream : hipStream_t)
    (d : DevMem T) :
    run_launch roti_device
        { kernel := .host_scalar nnz x_val x_ind y c s idx_base, blocks := b, threads := t,
          sharedMem := sh, stream := stream } d
      = some ((List.range (b.x * t.x)).foldl
          (fun d g => roti_entry g nnz x_val x_ind y c s idx_base d) d) := by
  have hrun := run_threads_fold
    (kernel_body roti_device (.host_scalar nnz x_val x_ind y c s idx_base))
    (fun g d => roti_entry g nnz x_val x_ind y c s idx_base d) (fun _ _ => rfl)
    (grid_threads b.x t.x) d
  rw [grid_threads_indices] at hrun
  exact hrun

end RotationLemmas

section ShiftLemmas

variable {T : Type} [BEq T] [One T] [Zero T] [Mul T] [Add T] [Sub T]

end ShiftLemmas

/-! ## Auxiliary lemmas on the dispatch -/

section DispatchLemmas

variable {T : Type} [BEq T] [One T] [Zero T]

/-- A validated call with `nnz ≥ 1` reaches the dispatch step. -/
theorem roti_template_validated (h : _rocsparse_handle) (nnz : rocsparse_int)
    (x_val x_ind y c s : Ptr) (idx_base : rocsparse_index_base) (m : Machine T)
    (hb : idx_base = rocsparse_index_base_zero ∨ idx_base = rocsparse_index_base_one)
    (hn : 1 ≤ nnz) (hc : c ≠ nullptr) (hs : s ≠ nullptr) (hx : x_val ≠ nullptr)
    (hi : x_ind ≠ nullptr) (hy : y ≠ nullptr) :
    ∃ m0, roti_logging h nnz x_val x_ind y c s idx_base m = some m0 ∧
      rocsparse_roti_template (some h) nnz x_val x_ind y c s idx_base m
        = roti_dispatch h nnz x_val x_ind y c s idx_base m0 := by
  obtain ⟨m0, hlog⟩ := roti_logging_of_scalars h nnz x_val x_ind y c s idx_base m hc hs
  have hb' : ¬ (idx_base ≠ rocsparse_index_base_zero ∧ idx_base ≠ rocsparse_index_base_one) := by
    rcases hb with hb | hb <;> simp [hb]
  have hn' : ¬ nnz < 0 := not_lt.mpr (le_trans (by decide : (0 : Int) ≤ 1) hn)
  have hz : ¬ nnz = 0 := fun h0 => absurd (h0 ▸ hn : (1 : Int) ≤ 0) (by decide)
  refine ⟨m0, hlog, ?_⟩
  rw [roti_template_of_logged h nnz x_val x_ind y c s idx_base m m0 hlog]
  simp only [hb', hn', hc, hs, hx, hi, hy, hz, if_false]

/-- The status the validation order prescribes depends only on whether the
handle is null, the index base, the sign of `nnz` and which pointers are
null. -/
theorem spec_status_congr (handle1 handle2 : rocsparse_handle) (nnz1 nnz2 : rocsparse_int)
    (x_val1 x_ind1 y1 c1 s1 x_val2 x_ind2 y2 c2 s2 : Ptr) (idx_base : rocsparse_index_base)
    (hh : handle1 = none ↔ handle2 = none) (hn : nnz1 < 0 ↔ nnz2 < 0)
    (hc : c1 = nullptr ↔ c2 = nullptr) (hs : s1 = nullptr ↔ s2 = nullptr)
    (hx : x_val1 = nullptr ↔ x_val2 = nullptr) (hi : x_ind1 = nullptr ↔ x_ind2 = nullptr)
    (hy : y1 = nullptr ↔ y2 = nullptr) :
    spec_status handle1 nnz1 x_val1 x_ind1 y1 c1 s1 idx_base
      = spec_status handle2 nnz2 x_val2 x_ind2 y2 c2 s2 idx_base := by
  unfold spec_status
  simp only [hh, hn, hc, hs, hx, hi, hy]

end DispatchLemmas

/-! ## Theorems on the rotation, the pointer modes and the version -/

/-- C11: a validated host-mode call with `1 ≤ nnz`, host scalars other than the
identity pair, indices in range of `y` and pairwise distinct, and buffers
`x_val` (of `nnz` cells) and `y` (of `ny` cells) that do not overlap, returns
`success`, and once the enqueued `roti_kernel_host_scalar` has run (with
`roti_device` the update of the specification) every sparse entry `i` has
`x_val[i] = c * x_val[i] - s * y[idx]` and `y[idx] = s * x_val[i] + c * y[idx]`
in terms of the values before the call, `idx = x_ind[i] - idx_base`, while every
entry of `y` that no index refers to is unchanged. -/
theorem roti_host_rotation {T : Type} [BEq T] [One T] [Zero T] [Mul T] [Add T] [Sub T]
    (h : _rocsparse_handle) (n : Nat) (x_val x_ind y c s : Ptr)
    (idx_base : rocsparse_index_base) (m : Machine T) (ny : Nat)
    (hm : h.pointer_mode = .rocsparse_pointer_mode_host)
    (hb : idx_base = rocsparse_index_base_zero ∨ idx_base = rocsparse_index_base_one)
    (hn1 : 1 ≤ n) (hn2 : n ≤ 2147483647)
    (hc : c ≠ nullptr) (hs : s ≠ nullptr) (hx : x_val ≠ nullptr) (hi : x_ind ≠ nullptr)
    (hy : y ≠ nullptr)
    (hid : ¬ ((m.host c == 1 && m.host s == 0) = true))
    (hrange : ∀ i, i < n →
      0 ≤ m.device.ints (x_ind + i) - idx_base ∧ m.device.ints (x_ind + i) - idx_base < ny)
    (hdist : ∀ i j, i < n → j < n → i ≠ j →
      m.device.ints (x_ind + i) ≠ m.device.ints (x_ind + j))
    (hlay : x_val + n ≤ y ∨ y + ny ≤ x_val) :
    ∃ d : DevMem T,
      roti_then_sync roti_device (some h) (n : Int) x_val x_ind y c s idx_base m
        = some (rocsparse_status.success, d) ∧
      (∀ i, i < n →
        d.vals (x_val + i)
          = m.host c * m.device.vals (x_val + i)
            - m.host s * m.device.vals (y_addr y (m.device.ints (x_ind + i) - idx_base)) ∧
        d.vals (y_addr y (m.device.ints (x_ind + i) - idx_base))
          = m.host s * m.device.vals (x_val + i)
            + m.host c * m.device.vals (y_addr y (m.device.ints (x_ind + i) - idx_base))) ∧
      (∀ j, j < ny → (∀ i, i < n → m.device.ints (x_ind + i) - idx_base ≠ (j : Int)) →
        d.vals (y + j) = m.device.vals (y + j)) := by
  obtain ⟨m0, hlog⟩ := roti_logging_of_scalars h (n : Int) x_val x_ind y c s idx_base m hc hs
  have hb' : ¬ (idx_base ≠ rocsparse_index_base_zero ∧ idx_base ≠ rocsparse_index_base_one) := by
    rcases hb with hb | hb <;> simp [hb]
  have hn' : ¬ ((n : Int) < 0) := by omega
  have hz : ¬ ((n : Int) = 0) := by omega
  have hsync := roti_then_sync_of_logged roti_device h (n : Int) x_val x_ind y c s idx_base
    m m0 hlog
  simp only [if_neg hb', if_neg hn', if_neg hc, if_neg hs, if_neg hx, if_neg hi, if_neg hy,
    if_neg hz, hm, if_neg hid, run_launch_host_scalar, Option.map_some'] at hsync
  have hinv := roti_fold_range n x_val x_ind y (m.host c) (m.host s) idx_base m.device
    (fun i => y_addr y (m.device.ints (x_ind + i) - idx_base)) (fun _ => rfl)
    (fun i j hi' hj' => x_val_ne_y_addr x_val y n ny i _ hlay hi' (hrange j hj').1
      (hrange j hj').2)
    (fun i j hi' hj' hij => y_addr_ne y _ _ (hrange i hi').1 (hrange j hj').1
      (fun heq => hdist i j hi' hj' hij (by linarith)))
    ((roti_blocks (n : Int)).x * roti_threads.x)
  have hcov := roti_grid_covers n hn1 hn2
  refine ⟨_, hsync, ?_, ?_⟩
  · intro i hin
    exact hinv.2.1 i (lt_of_lt_of_le hin hcov) hin
  · intro j hj hfree
    rw [← y_addr_nat y j]
    apply hinv.2.2.2
    intro i hin
    constructor
    · exact (x_val_ne_y_addr x_val y n ny i (j : Int) hlay hin (by omega) (by omega)).symm
    · exact (y_addr_ne y _ _ (hrange i hin).1 (by omega) (hfree i hin)).symm

/-- Witness of C11: the end-to-end scenario `nnz = 1`, `x_val = [2]`,
`x_ind = [0]`, index base zero, `y = [1, 0, 0]`, `c = 0`, `s = 1`, which ends
with `x_val = [-1]` and `y = [2, 0, 0]`. -/
theorem roti_host_rotation_witness :
    ∃ d : DevMem Int,
      roti_then_sync roti_device (some hostHandle) 1 10 30 20 40 41
        rocsparse_index_base_zero (machineRot 0) = some (rocsparse_status.success, d) ∧
      d.vals 10 = -1 ∧ d.vals 20 = 2 ∧ d.vals 21 = 0 ∧ d.vals 22 = 0 := by
  obtain ⟨d, hd, hrot, hrest⟩ :=
    roti_host_rotation hostHandle 1 10 30 20 40 41 rocsparse_index_base_zero (machineRot 0) 3
      rfl (Or.inl rfl) (by decide) (by decide) (by decide) (by decide) (by decide)
      (by decide) (by decide) (by decide)
      (fun i hi => by
        have h0 : i = 0 := by omega
        subst h0
        decide)
      (fun i j hi hj hij => by omega)
      (Or.inl (by decide))
  refine ⟨d, hd, ?_, ?_, ?_, ?_⟩
  · exact (hrot 0 (by decide)).1
  · exact (hrot 0 (by decide)).2
  · exact hrest 1 (by decide) (fun i hi => by
      have h0 : i = 0 := by omega
      subst h0
      decide)
  · exact hrest 2 (by decide) (fun i hi => by
      have h0 : i = 0 := by omega
      subst h0
      decide)

/-- C13: version encoding round trip.  For `major ≥ 0`, `0 ≤ minor < 1000` and
`0 ≤ patch < 100` the version `major*100000 + minor*100 + patch` is decoded by
the formulas documented for `rocsparse_get_version`: `version % 100 = patch`,
`version / 100 % 1000 = minor` and `version / 100000 = major`. -/
theorem version_round_trip (major minor patch : Int) (hmaj : 0 ≤ major) (hmin0 : 0 ≤ minor)
    (hmin : minor < 1000) (hpat0 : 0 ≤ patch) (hpat : patch < 100) :
    version_patch (encode_version major minor patch) = patch ∧
    version_minor (encode_version major minor patch) = minor ∧
    version_major (encode_version major minor patch) = major := by
  have hv : 0 ≤ major * 100000 + minor * 100 + patch := by omega
  unfold version_patch version_minor version_major encode_version
  rw [Int.tmod_eq_emod hv (by decide), Int.tdiv_eq_ediv hv (by decide),
    Int.tdiv_eq_ediv hv (by decide), Int.tmod_eq_emod (by omega) (by decide)]
  omega

/-- Witness of C13: version 1.12.3 is encoded as 101203. -/
theorem version_round_trip_witness :
    encode_version 1 12 3 = 101203 ∧
    version_patch (encode_version 1 12 3) = 3 ∧
    version_minor (encode_version 1 12 3) = 12 ∧
    version_major (encode_version 1 12 3) = 1 :=
  ⟨by decide, version_round_trip 1 12 3 (by decide) (by decide) (by decide) (by decide)
    (by decide)⟩

/-- C14: a validated call in device pointer mode with `nnz ≥ 1` returns `success`
and adds exactly one launch to the queue: the kernel `roti_kernel_device_scalar`
on the stream of the handle, with `ceil (nnz / 512)` blocks of 512 threads, no
dynamic shared memory, and `nnz`, `x_val`, `x_ind`, `y`, `c`, `s`, `idx_base`
passed on unchanged, `c` and `s` as pointers.  The same launch is enqueued
whatever host and device memory hold, so neither `*c` nor `*s` is read to decide
it. -/
theorem roti_device_mode_launch {T : Type} [BEq T] [One T] [Zero T] (h : _rocsparse_handle)
    (nnz : Int) (x_val x_ind y c s : Ptr) (idx_base : rocsparse_index_base) (m : Machine T)
    (hm : h.pointer_mode = .rocsparse_pointer_mode_device)
    (hb : idx_base = rocsparse_index_base_zero ∨ idx_base = rocsparse_index_base_one)
    (hn1 : 1 ≤ nnz) (hn2 : nnz ≤ 2147483647)
    (hc : c ≠ nullptr) (hs : s ≠ nullptr) (hx : x_val ≠ nullptr) (hi : x_ind ≠ nullptr)
    (hy : y ≠ nullptr) :
    (∀ (host1 : Nat → T) (device1 : DevMem T),
      ∃ m1, rocsparse_roti_template (some h) nnz x_val x_ind y c s idx_base
          { m with host := host1, device := device1 } = some (rocsparse_status.success, m1) ∧
        m1.queue = m.queue ++
          [{ kernel := KernelCall.device_scalar nnz x_val x_ind y c s idx_base,
             blocks := roti_blocks nnz, threads := roti_threads, sharedMem := 0,
             stream := h.stream }]) ∧
    ((roti_blocks nnz).x : Int) = ⌈(nnz : ℚ) / 512⌉ ∧
    (roti_blocks nnz).y = 1 ∧ (roti_blocks nnz).z = 1 ∧
    roti_threads = { x := 512, y := 1, z := 1 } := by
  refine ⟨?_, ?_, rfl, rfl, by decide⟩
  · intro host1 device1
    obtain ⟨m0, hlog, htemplate⟩ := roti_template_validated h nnz x_val x_ind y c s idx_base
      { m with host := host1, device := device1 } hb hn1 hc hs hx hi hy
    have hf := roti_logging_frame h nnz x_val x_ind y c s idx_base _ m0 hlog
    rw [htemplate]
    unfold roti_dispatch
    simp only [hm]
    refine ⟨_, rfl, ?_⟩
    show m0.queue ++ _ = m.queue ++ _
    rw [hf.1]
  · rw [roti_blocks_x nnz hn1 hn2, roti_quotient_ceil]

/-- Witness of C14: device mode, `nnz = 513` (two blocks), scalars at device
addresses 40 and 41. -/
theorem roti_device_mode_launch_witness :
    (∀ (host1 : Nat → Int) (device1 : DevMem Int),
      ∃ m1, rocsparse_roti_template (some deviceHandle) 513 10 30 20 40 41
          rocsparse_index_base_zero
          { machine0 with host := host1, device := device1 }
            = some (rocsparse_status.success, m1) ∧
        m1.queue = machine0.queue ++
          [{ kernel := KernelCall.device_scalar 513 10 30 20 40 41 rocsparse_index_base_zero,
             blocks := roti_blocks 513, threads := roti_threads, sharedMem := 0,
             stream := deviceHandle.stream }]) ∧
    ((roti_blocks 513).x : Int) = ⌈((513 : Int) : ℚ) / 512⌉ ∧
    (roti_blocks 513).y = 1 ∧ (roti_blocks 513).z = 1 ∧
    roti_threads = { x := 512, y := 1, z := 1 } :=
  roti_device_mode_launch deviceHandle 513 10 30 20 40 41 rocsparse_index_base_zero machine0
    rfl (Or.inl rfl) (by decide) (by decide) (by decide) (by decide) (by decide) (by decide)
    (by decide)

/-- C15: a validated call in host pointer mode with `nnz ≥ 1` returns `success`;
it enqueues nothing when `*c == 1 && *s == 0` and otherwise adds exactly one
launch to the queue: the kernel `roti_kernel_host_scalar` on the stream of the
handle, its scalar arguments being the values `*c` and `*s` read from host
memory at the call.  So a kernel is enqueued if and only if the scalars are not
the identity pair. -/
theorem roti_host_mode_launch {T : Type} [BEq T] [One T] [Zero T] (h : _rocsparse_handle)
    (nnz : rocsparse_int) (x_val x_ind y c s : Ptr) (idx_base : rocsparse_index_base)
    (m : Machine T)
    (hm : h.pointer_mode = .rocsparse_pointer_mode_host)
    (hb : idx_base = rocsparse_index_base_zero ∨ idx_base = rocsparse_index_base_one)
    (hn1 : 1 ≤ nnz)
    (hc : c ≠ nullptr) (hs : s ≠ nullptr) (hx : x_val ≠ nullptr) (hi : x_ind ≠ nullptr)
    (hy : y ≠ nullptr) :
    ∃ m1, rocsparse_roti_template (some h) nnz x_val x_ind y c s idx_base m
        = some (rocsparse_status.success, m1) ∧
      ((m.host c == 1 && m.host s == 0) = true → m1.queue = m.queue) ∧
      (¬ (m.host c == 1 && m.host s == 0) = true →
        m1.queue = m.queue ++
          [{ kernel := KernelCall.host_scalar nnz x_val x_ind y (m.host c) (m.host s) idx_base,
             blocks := roti_blocks nnz, threads := roti_threads, sharedMem := 0,
             stream := h.stream }]) ∧
      (m1.queue ≠ m.queue ↔ ¬ (m.host c == 1 && m.host s == 0) = true) := by
  obtain ⟨m0, hlog, htemplate⟩ := roti_template_validated h nnz x_val x_ind y c s idx_base
    m hb hn1 hc hs hx hi hy
  have hf := roti_logging_frame h nnz x_val x_ind y c s idx_base m m0 hlog
  rw [htemplate]
  unfold roti_dispatch
  simp only [hm, load_of_ne_null _ hc, load_of_ne_null _ hs, hf.2.2]
  by_cases hid : (m.host c == 1 && m.host s == 0) = true
  · rw [if_pos hid]
    refine ⟨m0, rfl, fun _ => hf.1, fun hne => absurd hid hne, ?_⟩
    constructor
    · intro hq
      exact absurd hf.1 hq
    · intro hne
      exact absurd hid hne
  · rw [if_neg hid]
    have hq : (hipLaunchKernelGGL (KernelCall.host_scalar nnz x_val x_ind y (m.host c)
        (m.host s) idx_base) (roti_blocks nnz) roti_threads 0 h.stream m0).queue
        = m.queue ++
          [{ kernel := KernelCall.host_scalar nnz x_val x_ind y (m.host c) (m.host s) idx_base,
             blocks := roti_blocks nnz, threads := roti_threads, sharedMem := 0,
             stream := h.stream }] := by
      show m0.queue ++ _ = m.queue ++ _
      rw [hf.1]
    refine ⟨_, rfl, fun hyes => absurd hyes hid, fun _ => hq, ?_⟩
    constructor
    · intro _
      exact hid
    · intro _ heq
      rw [hq] at heq
      have hlen := congrArg List.length heq
      simp at hlen

/-- Witness of C15: host mode, `nnz = 1`, `c = 0` and `s = 1` in host memory:
one launch of the by-value kernel. -/
theorem roti_host_mode_launch_witness :
    ∃ m1, rocsparse_roti_template (some hostHandle) 1 10 30 20 40 41
        rocsparse_index_base_zero (machineRot 0) = some (rocsparse_status.success, m1) ∧
      (((machineRot 0).host 40 == 1 && (machineRot 0).host 41 == 0) = true →
        m1.queue = (machineRot 0).queue) ∧
      (¬ ((machineRot 0).host 40 == 1 && (machineRot 0).host 41 == 0) = true →
        m1.queue = (machineRot 0).queue ++
          [{ kernel := KernelCall.host_scalar 1 10 30 20 ((machineRot 0).host 40)
               ((machineRot 0).host 41) rocsparse_index_base_zero,
             blocks := roti_blocks 1, threads := roti_threads, sharedMem := 0,
             stream := hostHandle.stream }]) ∧
      (m1.queue ≠ (machineRot 0).queue ↔
        ¬ ((machineRot 0).host 40 == 1 && (machineRot 0).host 41 == 0) = true) :=
  roti_host_mode_launch hostHandle 1 10 30 20 40 41 rocsparse_index_base_zero (machineRot 0)
    rfl (Or.inl rfl) (by decide) (by decide) (by decide) (by decide) (by decide) (by decide)

/-- C16: in host pointer mode the logging step reads `*c` and `*s` before any
pointer check: for every stream, `nnz`, buffers, index base and machine state a
call with `c` null, and a call with `s` null, faults and returns no status,
while the same calls in device pointer mode with valid other arguments reach
the pointer check and return `invalid_pointer`. -/
theorem roti_host_logging_reads_scalars {T : Type} [BEq T] [One T] [Zero T]
    (stream : hipStream_t) (nnz : rocsparse_int) (x_val x_ind y p : Ptr)
    (idx_base : rocsparse_index_base) (m : Machine T) :
    rocsparse_roti_template
        (some { pointer_mode := .rocsparse_pointer_mode_host, stream := stream })
        nnz x_val x_ind y nullptr p idx_base m = none ∧
    rocsparse_roti_template
        (some { pointer_mode := .rocsparse_pointer_mode_host, stream := stream })
        nnz x_val x_ind y p nullptr idx_base m = none ∧
    (∃ m1, rocsparse_roti_template
        (some { pointer_mode := .rocsparse_pointer_mode_device, stream := stream })
        1 x_val x_ind y nullptr p rocsparse_index_base_zero m
          = some (rocsparse_status.invalid_pointer, m1)) ∧
    ∃ m1, rocsparse_roti_template
        (some { pointer_mode := .rocsparse_pointer_mode_device, stream := stream })
        1 x_val x_ind y 1 nullptr rocsparse_index_base_zero m
          = some (rocsparse_status.invalid_pointer, m1) := by
  refine ⟨?_, ?_, ?_, ?_⟩
  · simp only [rocsparse_roti_template,
      roti_logging_host_null_c
        { pointer_mode := .rocsparse_pointer_mode_host, stream := stream } rfl]
  · simp only [rocsparse_roti_template,
      roti_logging_host_null_s
        { pointer_mode := .rocsparse_pointer_mode_host, stream := stream } rfl]
  · exact ⟨_, rfl⟩
  · exact ⟨_, rfl⟩

/-- C18: two calls that agree on the handle being non-null, the index base, the
sign of `nnz` and which pointers are null (`c` only) and differ in pointer mode,
magnitude of `nnz` and memory contents do not return the same status: the
host-mode call faults in the logging step, which reads `*c`, and returns no
status, the device-mode call returns `invalid_pointer`. -/
theorem roti_status_depends_on_pointer_mode :
    rocsparse_roti_template (some hostHandle) 3 10 30 20 nullptr 41
      rocsparse_index_base_one machine0 = none ∧
    ∃ m1, rocsparse_roti_template (some deviceHandle) 7 11 31 21 nullptr 42
      rocsparse_index_base_one machineId = some (rocsparse_status.invalid_pointer, m1) := by
  constructor
  · rfl
  · exact ⟨_, rfl⟩

/-- Whenever two calls that agree on whether the handle is null, on the index
base, on the sign of `nnz` and on which pointers are null both return a status,
they return the same status, whatever their pointer modes, streams, scalar
values, magnitudes of `nnz` and memory contents. -/
theorem roti_status_determined {T : Type} [BEq T] [One T] [Zero T]
    (handle1 handle2 : rocsparse_handle) (nnz1 nnz2 : rocsparse_int)
    (x_val1 x_ind1 y1 c1 s1 x_val2 x_ind2 y2 c2 s2 : Ptr) (idx_base : rocsparse_index_base)
    (m1 m2 r1 r2 : Machine T) (st1 st2 : rocsparse_status)
    (hh : handle1 = none ↔ handle2 = none) (hn : nnz1 < 0 ↔ nnz2 < 0)
    (hc : c1 = nullptr ↔ c2 = nullptr) (hs : s1 = nullptr ↔ s2 = nullptr)
    (hx : x_val1 = nullptr ↔ x_val2 = nullptr) (hi : x_ind1 = nullptr ↔ x_ind2 = nullptr)
    (hy : y1 = nullptr ↔ y2 = nullptr)
    (hret1 : rocsparse_roti_template handle1 nnz1 x_val1 x_ind1 y1 c1 s1 idx_base m1
      = some (st1, r1))
    (hret2 : rocsparse_roti_template handle2 nnz2 x_val2 x_ind2 y2 c2 s2 idx_base m2
      = some (st2, r2)) :
    st1 = st2 := by
  rw [roti_returned_status handle1 nnz1 x_val1 x_ind1 y1 c1 s1 idx_base m1 r1 st1 hret1,
    roti_returned_status handle2 nnz2 x_val2 x_ind2 y2 c2 s2 idx_base m2 r2 st2 hret2]
  exact spec_status_congr handle1 handle2 nnz1 nnz2 x_val1 x_ind1 y1 c1 s1 x_val2 x_ind2 y2
    c2 s2 idx_base hh hn hc hs hx hi hy

end Rocsparse
